import Mathlib

/-!
Verification development for the roast2d 2D game-engine simulation core
(physics integration, tile tracer, SAT narrow phase, sweep-and-prune broad
phase, collision resolution, ECS dual-borrow access).

The Rust source is shallowly embedded: f32 values are modelled as exact
rationals, f32-to-integer casts are modelled as the saturating truncations
Rust performs, mutable state is threaded explicitly, and panics are
modelled as Option/Except failures.  All definitions are executable.
-/

set_option maxRecDepth 4000

namespace Roast2d

/-- Vec2 models glam's f32 2D vector with exact rational components. -/
structure Vec2 where
  x : ℚ
  y : ℚ
deriving DecidableEq, Repr

instance : Add Vec2 := ⟨fun a b => ⟨a.x + b.x, a.y + b.y⟩⟩

instance : Sub Vec2 := ⟨fun a b => ⟨a.x - b.x, a.y - b.y⟩⟩

instance : Neg Vec2 := ⟨fun a => ⟨-a.x, -a.y⟩⟩

/-- Componentwise product, as glam's Vec2 * Vec2. -/
instance : Mul Vec2 := ⟨fun a b => ⟨a.x * b.x, a.y * b.y⟩⟩

/-- Scalar product on the right, as glam's Vec2 * f32. -/
instance : HMul Vec2 ℚ Vec2 := ⟨fun v s => ⟨v.x * s, v.y * s⟩⟩

/-- Scalar division, as glam's Vec2 / f32. -/
instance : HDiv Vec2 ℚ Vec2 := ⟨fun v s => ⟨v.x / s, v.y / s⟩⟩

/-- Dot product (glam Vec2::dot). -/
def dot (a b : Vec2) : ℚ := a.x * b.x + a.y * b.y

/-- Counterclockwise perpendicular (glam Vec2::perp): (x, y) to (-y, x). -/
def perp (a : Vec2) : Vec2 := ⟨-a.y, a.x⟩

/-- Rect from types.rs: an axis-aligned rectangle given by min/max corners. -/
structure Rect where
  min : Vec2
  max : Vec2
deriving DecidableEq, Repr

/-- Modelled from the spec: Rect::is_touching is called by calc_overlap in
collision.rs but its definition is absent from the snapshot; the spec states
it "is a closed-interval AABB overlap test", matching the retained
Entity::is_touching in entity.rs lines 183-190, which this follows. -/
def Rect.is_touching (a b : Rect) : Bool :=
  !(a.min.x > b.max.x || a.max.x < b.min.x || a.min.y > b.max.y || a.max.y < b.min.y)

/-- SweepAxis from types.rs. -/
inductive SweepAxis where
  | X
  | Y
deriving DecidableEq, Repr

/-- SweepAxis::get from types.rs. -/
def SweepAxis.get (s : SweepAxis) (pos : Vec2) : ℚ :=
  match s with
  | .X => pos.x
  | .Y => pos.y

/-- Truncation of a rational toward zero, the rounding used by Rust's
float-to-integer `as` casts. -/
def intTrunc (q : ℚ) : ℤ := if q < 0 then ⌈q⌉ else ⌊q⌋

/-- Saturation of an integer into the i32 range, as Rust float-to-i32 casts. -/
def satI32 (z : ℤ) : ℤ := max (-(2 ^ 31)) (min (2 ^ 31 - 1) z)

/-- Rust `value as i32` on a (finite) f32 value: truncate toward zero and
saturate into the i32 range. -/
def i32OfRat (q : ℚ) : ℤ := satI32 (intTrunc q)

/-- Rust `value as usize` on a (finite) f32 value: truncate toward zero,
negative values saturate to 0, large values to usize::MAX (64-bit). -/
def usizeOfRat (q : ℚ) : ℕ := min (intTrunc q).toNat (2 ^ 64 - 1)

/-- The f32::MAX constant, exactly. -/
def f32MAX : ℚ := 2 ^ 128 - 2 ^ 104

/-- ENTITY_MIN_BOUNCE_VELOCITY from collision.rs. -/
def ENTITY_MIN_BOUNCE_VELOCITY : ℚ := 10

/-! ## CollisionMap (collision_map.rs) -/

/-- CollisionMap::get from collision_map.rs, lines 58-64, factored over the
size and data fields: out-of-range coordinates return None, in-range
coordinates are looked up at row-major index pos.y * size.x + pos.x with the
(total) slice get. -/
def mapGet (size : ℕ × ℕ) (data : List ℕ) (pos : ℤ × ℤ) : Option ℕ :=
  if pos.1 < 0 ∨ pos.2 < 0 ∨ pos.1 ≥ (size.1 : ℤ) ∨ pos.2 ≥ (size.2 : ℤ) then
    none
  else
    data.get? (pos.2 * (size.1 : ℤ) + pos.1).toNat

/-- A collision rule (the CollisionRule trait object): it may inspect the
map's tiles through the getter it is handed. -/
def CollisionRule : Type := ((ℤ × ℤ) → Option ℕ) → (ℤ × ℤ) → Bool

/-- DefaultCollisionRule::is_collide from collision_map.rs, lines 18-22:
map.get(pos).is_some_and(|t| t != 0). -/
def defaultCollisionRule : CollisionRule := fun get pos =>
  match get pos with
  | some t => decide (t ≠ 0)
  | none => false

/-- CollisionMap from collision_map.rs: tile size in world units, grid size
in tiles, row-major u16 tile data, and a pluggable collision rule. -/
structure CollisionMap where
  size : ℕ × ℕ
  tile_size : ℚ
  data : List ℕ
  collision_rule : CollisionRule

/-- CollisionMap::get. -/
def CollisionMap.get (m : CollisionMap) (pos : ℤ × ℤ) : Option ℕ :=
  mapGet m.size m.data pos

/-- CollisionMap::is_collide: delegates to the collision rule. -/
def CollisionMap.is_collide (m : CollisionMap) (pos : ℤ × ℤ) : Bool :=
  m.collision_rule (fun p => mapGet m.size m.data p) pos

/-- CollisionMap::bounds: tile_size * size, componentwise. -/
def CollisionMap.bounds (m : CollisionMap) : Vec2 :=
  ⟨m.tile_size * (m.size.1 : ℚ), m.tile_size * (m.size.2 : ℚ)⟩

/-! ## Trace (trace.rs) -/

/-- Trace from trace.rs: tile is the hit tile id (0 if no hit), tile_pos the
hit tile coordinate, length the normalized 0..1 trace length, pos the
resulting position, normal the hit surface normal. -/
structure Trace where
  tile : ℤ
  tile_pos : ℤ × ℤ
  length : ℚ
  pos : Vec2
  normal : Vec2
deriving DecidableEq, Repr

/-- Trace::default from trace.rs, lines 24-34. -/
def Trace.default : Trace :=
  { tile := 0, pos := ⟨0, 0⟩, normal := ⟨0, 0⟩, length := 1, tile_pos := (0, 0) }

/-- The hit flag of a trace. The collision.rs revision in the snapshot reads
a field named is_collide on its Trace; in the trace.rs revision the same
information is the tile field, documented as "0 if no hit" (and the retained
older handler in entity.rs tests t.tile == 0). -/
def Trace.is_collide (t : Trace) : Bool := decide (t.tile ≠ 0)

/-- resolve_full_tile from trace.rs, lines 165-218. -/
def resolve_full_tile (m : CollisionMap) (pos vel size : Vec2) (tile_pos : ℤ × ℤ)
    (res : Trace) : Trace :=
  let rp : Vec2 :=
    ⟨(tile_pos.1 : ℚ) * m.tile_size + (if vel.x > 0 then -size.x else m.tile_size),
     (tile_pos.2 : ℚ) * m.tile_size + (if vel.y > 0 then -size.y else m.tile_size)⟩
  let sign := (vel.x * (rp.y - pos.y) - vel.y * (rp.x - pos.x)) * vel.x * vel.y
  if sign < 0 ∨ vel.y = 0 then
    -- Horizontal collision (x direction, left or right edge)
    let length := |(pos.x - rp.x) / vel.x|
    if length > res.length then res
    else
      { res with
        normal := ⟨if vel.x > 0 then -1 else 1, 0⟩
        tile := 1
        tile_pos := tile_pos
        length := length
        pos := ⟨rp.x, pos.y + length * vel.y⟩ }
  else
    -- Vertical collision (y direction, top or bottom edge)
    let length := |(pos.y - rp.y) / vel.y|
    if length > res.length then res
    else
      { res with
        normal := ⟨0, if vel.y > 0 then -1 else 1⟩
        tile := 1
        tile_pos := tile_pos
        length := length
        pos := ⟨pos.x + length * vel.x, rp.y⟩ }

/-- check_tile from trace.rs, lines 152-163. -/
def check_tile (m : CollisionMap) (pos vel size : Vec2) (tile_pos : ℤ × ℤ)
    (res : Trace) : Trace :=
  if m.is_collide tile_pos then resolve_full_tile m pos vel size tile_pos res
  else res

/-- The loop-invariant data of trace's main loop: the values the source
mutates across iterations (from, vel, size, corner, offset, dir, step_size,
half_size are fixed for the whole loop). -/
structure TraceCtx where
  map : CollisionMap
  fromv : Vec2
  vel : Vec2
  size : Vec2
  corner : Vec2
  offset : Vec2
  dir : Vec2
  step_size : Vec2
  half_size : Vec2

/-- One check of the vertical-edge walk (trace.rs lines 95-104): check the
tile t steps along dir.y from tile_pos. -/
def checkTileColumn (c : TraceCtx) (tile_pos : ℤ × ℤ) (r : Trace) (t : ℕ) : Trace :=
  check_tile c.map c.fromv c.vel c.size
    (tile_pos.1, tile_pos.2 + intTrunc c.dir.y * (t : ℤ)) r

/-- One check of the horizontal-edge walk (trace.rs lines 123-132): check
the tile t steps along dir.x from tile_pos. -/
def checkTileRow (c : TraceCtx) (tile_pos : ℤ × ℤ) (r : Trace) (t : ℕ) : Trace :=
  check_tile c.map c.fromv c.vel c.size
    (tile_pos.1 + intTrunc c.dir.x * (t : ℤ), tile_pos.2) r

/-- The vertical-edge walk of trace (trace.rs lines 82-108): when the tile
column changed, figure out the number of tiles in Y direction to check and
check them. -/
def traceScanColumn (c : TraceCtx) (i : ℕ) (tile_pos : ℤ × ℤ) (res : Trace) : Trace :=
  let max_y0 := c.fromv.y + c.size.y * (1 - c.offset.y)
  let max_y :=
    if 0 < i then
      max_y0 + (c.vel.y / c.vel.x) *
        (((tile_pos.1 : ℚ) + 1 - c.offset.x) * c.map.tile_size - c.corner.x)
    else max_y0
  let num_tiles := satI32 ⌈|max_y / c.map.tile_size - (tile_pos.2 : ℚ) - c.offset.y|⌉
  (List.range num_tiles.toNat).foldl (checkTileColumn c tile_pos) res

/-- The horizontal-edge walk of trace (trace.rs lines 110-135): when the
tile row changed, figure out the number of tiles in X direction to check and
check them, skipping the corner tile when the column walk already did. -/
def traceScanRow (c : TraceCtx) (i : ℕ) (tile_pos : ℤ × ℤ) (corner_tile_checked : ℕ)
    (res : Trace) : Trace :=
  let max_x0 := c.fromv.x + c.size.x * (1 - c.offset.x)
  let max_x :=
    if 0 < i then
      max_x0 + (c.vel.x / c.vel.y) *
        (((tile_pos.2 : ℚ) + 1 - c.offset.y) * c.map.tile_size - c.corner.y)
    else max_x0
  let num_tiles := satI32 ⌈|max_x / c.map.tile_size - (tile_pos.1 : ℚ) - c.offset.x|⌉
  ((List.range num_tiles.toNat).drop corner_tile_checked).foldl (checkTileRow c tile_pos) res

/-- The body of one iteration of trace's i-loop (trace.rs lines 76-135):
compute the tile position from corner + step_size * i, run the column walk
when the tile column changed and the row walk when the tile row changed,
and return the updated trace result and last_tile_pos. -/
def traceStep (c : TraceCtx) (i : ℕ) (last_tile_pos : ℤ × ℤ) (res : Trace) :
    Trace × (ℤ × ℤ) :=
  let p := (c.corner + c.step_size * (i : ℚ)) / c.map.tile_size
  let tile_pos : ℤ × ℤ := (i32OfRat p.x, i32OfRat p.y)
  let xChanged := last_tile_pos.1 ≠ tile_pos.1
  let res1 := if xChanged then traceScanColumn c i tile_pos res else res
  let corner_tile_checked : ℕ := if xChanged then 1 else 0
  let last1 : ℤ × ℤ := if xChanged then (tile_pos.1, last_tile_pos.2) else last_tile_pos
  let yChanged := last1.2 ≠ tile_pos.2
  let res2 := if yChanged then traceScanRow c i tile_pos corner_tile_checked res1 else res1
  let last2 : ℤ × ℤ := (last1.1, if yChanged then tile_pos.2 else last1.2)
  (res2, last2)

/-- One pass of the i-loop of trace (trace.rs lines 75-146), written as a
fuel-indexed recursion: fuel counts the remaining iterations (steps + 1 - i
at entry); when fuel runs out the loop has finished and the epilogue
res.pos += half_size (line 148) applies, as it also does at the early return
inside the loop (lines 141-144). -/
def traceLoop (c : TraceCtx) : ℕ → ℕ → (ℤ × ℤ) → Bool → Trace → Trace
  | 0, _, _, _, res => { res with pos := res.pos + c.half_size }
  | fuel + 1, i, last_tile_pos, extra_step_for_slope, res =>
    let s := traceStep c i last_tile_pos res
    if s.1.tile > 0 ∧ (s.1.tile = 1 ∨ extra_step_for_slope) then
      { s.1 with pos := s.1.pos + c.half_size }
    else
      traceLoop c fuel (i + 1) s.2 true s.1

/-- trace from trace.rs, lines 36-150. -/
def trace (m : CollisionMap) (from_center vel size : Vec2) : Trace :=
  let half_size := size * (1 / 2 : ℚ)
  let fromv := from_center - half_size
  let tov := fromv + vel
  let res : Trace := { Trace.default with pos := tov }
  let map_size := m.bounds
  if (fromv.x + size.x < 0 ∧ tov.x + size.x < 0) ∨
      (fromv.y + size.y < 0 ∧ tov.y + size.y < 0) ∨
      (fromv.x > map_size.x ∧ tov.x > map_size.x) ∨
      (fromv.y > map_size.y ∧ tov.y > map_size.y) ∨
      (vel.x = 0 ∧ vel.y = 0) then
    { res with pos := res.pos + half_size }
  else
    let offset : Vec2 := ⟨if vel.x > 0 then 1 else 0, if vel.y > 0 then 1 else 0⟩
    let corner := fromv + size * offset
    let dir := offset * (-2 : ℚ) + ⟨1, 1⟩
    let max_vel := max (vel.x * -dir.x) (vel.y * -dir.y)
    let steps : ℚ := (⌈max_vel / m.tile_size⌉ : ℚ)
    if steps = 0 then { res with pos := res.pos + half_size }
    else
      let step_size := vel / steps
      traceLoop
        { map := m, fromv := fromv, vel := vel, size := size, corner := corner,
          offset := offset, dir := dir, step_size := step_size, half_size := half_size }
        (usizeOfRat steps + 1) 0 (-16, -16) false res

/-! ## Claim C9: dual mutable borrows from the World (ecs/world.rs) -/

/-- The World of ecs/world.rs, restricted to the data get_many_mut and
many_mut consult: the set of live entity handles (a HashSet of Ent, an Ent
being its u32 index). An EntMut is modelled by the handle it wraps, since
EntMut is just the handle plus an unsafe pointer to the world. -/
structure World where
  entities : List ℕ
deriving DecidableEq, Repr

/-- The self.entities.contains check of world.rs. -/
def World.containsEnt (w : World) (e : ℕ) : Bool := w.entities.contains e

/-- Rust's Iterator::collect into a Result: the first Err short-circuits. -/
def collectExcept : List (Except Unit ℕ) → Except Unit (List ℕ)
  | [] => Except.ok []
  | x :: xs =>
    match x with
    | .error e => .error e
    | .ok a =>
      match collectExcept xs with
      | .error e => .error e
      | .ok l => .ok (a :: l)

/-- A list of results where a panic occurred is modelled as containing a
none; the surrounding array map panics iff some element panics. -/
def collectOption : List (Option ℕ) → Option (List ℕ)
  | [] => some []
  | x :: xs =>
    match x with
    | none => none
    | some a =>
      match collectOption xs with
      | none => none
      | some l => some (a :: l)

/-- World::get_many_mut from ecs/world.rs, lines 134-145: map each handle
to Ok(EntMut) when it exists and Err(NoEntity) otherwise, then collect
(no duplicate check of any kind). -/
def get_many_mut (w : World) (ents : List ℕ) : Except Unit (List ℕ) :=
  collectExcept (ents.map
    (fun ent => if w.containsEnt ent then Except.ok ent else Except.error ()))

/-- World::many_mut from ecs/world.rs, lines 153-162: map each handle to an
EntMut when it exists and panic (modelled as none) otherwise (no duplicate
check of any kind). -/
def many_mut (w : World) (ents : List ℕ) : Option (List ℕ) :=
  collectOption (ents.map
    (fun ent => if w.containsEnt ent then some ent else none))

/-! ## Physics flags (physics.rs bitflags) -/

/-- EntCollidesMode bit values from physics.rs, lines 39-49. -/
def EntCollidesMode.WORLD : ℕ := 2

def EntCollidesMode.LITE : ℕ := 16

def EntCollidesMode.PASSIVE : ℕ := 32

def EntCollidesMode.ACTIVE : ℕ := 64

def EntCollidesMode.FIXED : ℕ := 128

/-- EntPhysics bit values from physics.rs, lines 14-37. -/
def EntPhysics.MOVE : ℕ := 1

def EntPhysics.WORLD : ℕ := EntPhysics.MOVE ||| EntCollidesMode.WORLD

def EntPhysics.LITE : ℕ := EntPhysics.WORLD ||| EntCollidesMode.LITE

def EntPhysics.PASSIVE : ℕ := EntPhysics.WORLD ||| EntCollidesMode.PASSIVE

def EntPhysics.ACTIVE : ℕ := EntPhysics.WORLD ||| EntCollidesMode.ACTIVE

def EntPhysics.FIXED : ℕ := EntPhysics.WORLD ||| EntCollidesMode.FIXED

/-- bitflags contains: all bits of sub are present. -/
def flagsContains (flags sub : ℕ) : Bool := flags &&& sub == sub

/-- EntPhysics::is_at_least from physics.rs, lines 67-69: compare raw bits. -/
def is_at_least (flags other : ℕ) : Bool := decide (flags ≥ other)

/-- EntPhysics::is_collide_mode from physics.rs, lines 71-73: bitwise
intersection nonempty. -/
def is_collide_mode (flags mode : ℕ) : Bool := decide (flags &&& mode ≠ 0)

/-- The Physics component from physics.rs, lines 76-90, with bitflag fields
as raw bit values. -/
structure Physics where
  physics : ℕ
  on_ground : Bool
  vel : Vec2
  accel : Vec2
  friction : Vec2
  gravity : ℚ
  mass : ℚ
  restitution : ℚ
  max_ground_normal : ℚ
  min_slide_normal : ℚ
  group : ℕ
  check_against : ℕ
deriving DecidableEq, Repr

/-- The Transform component from transform.rs restricted to angle = 0 (the
scope of the claims using it); bounds() then takes the first branch of
calc_bounds. -/
structure Transform where
  pos : Vec2
  scale : Vec2
  size : Vec2
deriving DecidableEq, Repr

/-- Transform::scaled_size: size * scale. -/
def Transform.scaled_size (t : Transform) : Vec2 := t.size * t.scale

/-- The angle == 0 (and |angle| == pi) branch of calc_bounds
(collision.rs lines 361-367 and transform.rs lines 44-50):
min = pos - half_size, max = pos + half_size. -/
def calc_bounds0 (pos half_size : Vec2) : Rect :=
  { min := pos - half_size, max := pos + half_size }

/-- Transform::bounds: calc_bounds(pos, scaled_size * 0.5, angle), at
angle = 0. -/
def Transform.bounds (t : Transform) : Rect :=
  calc_bounds0 t.pos (t.scaled_size * (1 / 2 : ℚ))

/-- An entity as the broad phase and resolver see it: its handle (Ent) plus
its Transform and Physics components. -/
structure EntSt where
  id : ℕ
  transform : Transform
  phy : Physics
deriving DecidableEq, Repr

/-! ## Insertion sort (roast2d_physics/src/sorts.rs) and the broad phase -/

/-- One insertion of the imperative insertion sort: the new element bubbles
left past every element of the sorted prefix whose key is not strictly
smaller (the inner loop of insertion_sort_by of sorts.rs swaps unless
is_less(list[j], list[j+1])), so it lands before the first element with a
greater-or-EQUAL key — elements with equal keys end up in reversed order
(the sort is anti-stable). -/
def insertBeforeGE {α : Type} (key : α → ℕ) (x : α) : List α → List α
  | [] => [x]
  | y :: ys => if key y < key x then y :: insertBeforeGE key x ys else x :: y :: ys

/-- insertion_sort_by_key from sorts.rs, lines 5-7 (with is_less a b =
key a < key b), as the left fold of single insertions: the outer loop
processes elements in order, keeping the prefix sorted. -/
def insertion_sort_by_key {α : Type} (key : α → ℕ) (l : List α) : List α :=
  l.foldl (fun acc x => insertBeforeGE key x acc) []

/-- The sort key of CollisionSet::sort_entities_for_sweep (collision.rs
lines 36-47): the projection of the entity's bounds-min onto the sweep
axis, CAST TO usize (entities without a Transform key as usize::MAX; every
modelled entity has one). -/
def sweepKey (axis : SweepAxis) (e : EntSt) : ℕ :=
  usizeOfRat (axis.get e.transform.bounds.min)

/-- CollisionSet::sort_entities_for_sweep from collision.rs, lines 36-47. -/
def sort_entities_for_sweep (axis : SweepAxis) (ents : List EntSt) : List EntSt :=
  insertion_sort_by_key (sweepKey axis) ents

/-! ## SAT narrow phase (sat.rs) -/

/-- SatRect from sat.rs, with the angle represented by its exact sine and
cosine (get_vertices starts from angle.sin_cos(); for the right angles in
the claims' scope these are exact rationals, e.g. (0, 1) at angle 0). -/
structure SatRect where
  pos : Vec2
  half_size : Vec2
  sinA : ℚ
  cosA : ℚ
deriving DecidableEq, Repr

/-- SatRect::get_vertices from sat.rs, lines 13-37. -/
def SatRect.get_vertices (r : SatRect) : List Vec2 :=
  let s := r.sinA
  let c := r.cosA
  let w := r.half_size.x
  let h := r.half_size.y
  [r.pos + ⟨-w * c - h * s, -w * s + h * c⟩,
   r.pos + ⟨w * c - h * s, w * s + h * c⟩,
   r.pos + ⟨w * c + h * s, w * s - h * c⟩,
   r.pos + ⟨-w * c + h * s, -w * s - h * c⟩]

/-- Projection from sat.rs, lines 41-45. -/
structure Projection where
  min : ℚ
  max : ℚ
deriving DecidableEq, Repr

/-- project from sat.rs, lines 47-61: fold the dot products, updating min
first and max only otherwise (the else-if). -/
def project (vertices : List Vec2) (axis : Vec2) : Projection :=
  match vertices with
  | [] => { min := 0, max := 0 }
  | v :: vs =>
    vs.foldl
      (fun pr v2 =>
        let p := dot v2 axis
        if p < pr.min then { min := p, max := pr.max }
        else if p > pr.max then { min := pr.min, max := p }
        else pr)
      { min := dot v axis, max := dot v axis }

/-- The private calc_overlap of sat.rs, lines 64-71 (named sat_calc_overlap
here because collision.rs has a distinct calc_overlap). -/
def sat_calc_overlap (proj1 proj2 : Projection) : Option ℚ :=
  let overlap := min proj1.max proj2.max - max proj1.min proj2.min
  if overlap > 0 then some overlap else none

/-- glam Vec2::normalize: the vector divided by its length, with f32 sqrt
modelled by the exact rational square root Rat.sqrt (exact on perfect
squares — every squared axis length arising from axis-aligned rectangles,
the claims' scope). -/
def normalize (v : Vec2) : Vec2 :=
  let len := Rat.sqrt (dot v v)
  ⟨v.x / len, v.y / len⟩

/-- One iteration of the axis loop of sat_collision_overlap (sat.rs lines
89-104): normalize the axis, project both vertex sets, return None when the
projections are separated, otherwise keep the minimum overlap and its
axis. -/
def satAxisStep (vs1 vs2 : List Vec2) (st : Option (ℚ × Vec2)) (axis : Vec2) :
    Option (ℚ × Vec2) :=
  match st with
  | none => none
  | some (min_overlap, min_axis) =>
    let a := normalize axis
    match sat_calc_overlap (project vs1 a) (project vs2 a) with
    | some overlap =>
      if overlap < min_overlap then some (overlap, a) else some (min_overlap, min_axis)
    | none => none

/-- Indexing of the vertex arrays. -/
def vget (l : List Vec2) (i : ℕ) : Vec2 := l.getD i ⟨0, 0⟩

/-- sat_collision_overlap from sat.rs, lines 74-111: two edge-normal axes
per rectangle, minimum-overlap axis wins (min_overlap starts at f32::MAX),
any separated axis returns None, result is min_axis * min_overlap. -/
def sat_collision_overlap (rect1 rect2 : SatRect) : Option Vec2 :=
  let vs1 := rect1.get_vertices
  let vs2 := rect2.get_vertices
  let axes := [perp (vget vs1 1 - vget vs1 0), perp (vget vs1 3 - vget vs1 0),
               perp (vget vs2 1 - vget vs2 0), perp (vget vs2 3 - vget vs2 0)]
  match axes.foldl (satAxisStep vs1 vs2) (some (f32MAX, ⟨0, 0⟩)) with
  | none => none
  | some (min_overlap, min_axis) =>
    some ⟨min_axis.x * min_overlap, min_axis.y * min_overlap⟩

/-! ## Narrow phase entry (collision.rs calc_overlap) -/

/-- The Shape of collision.rs (lines 442-446: pos, angle, half_size)
restricted to angle = 0, the claims' scope. -/
structure Shape where
  pos : Vec2
  half_size : Vec2
deriving DecidableEq, Repr

/-- calc_overlap from collision.rs, lines 448-487, at angle = 0 for both
shapes: the bounds pre-check (is_touching), then — since is_right_angle(0)
holds — the axis-aligned fast path computing the signed penetration per
axis from the bounds. -/
def calc_overlap (s1 s2 : Shape) : Option Vec2 :=
  let b1 := calc_bounds0 s1.pos s1.half_size
  let b2 := calc_bounds0 s2.pos s2.half_size
  if ¬ (b1.is_touching b2) then none
  else
    let overlap_x : ℚ :=
      if b1.min.x < b2.min.x then b1.max.x - b2.min.x
      else if b2.max.x > b1.min.x then -(b2.max.x - b1.min.x)
      else 0
    let overlap_y : ℚ :=
      if b1.min.y < b2.min.y then b1.max.y - b2.min.y
      else if b2.max.y > b1.min.y then -(b2.max.y - b1.min.y)
      else 0
    some ⟨overlap_x, overlap_y⟩

/-- calc_ent_overlap from collision.rs, lines 424-440, at angle = 0: build
the two shapes from the entities' transforms (half_size =
scaled_size * 0.5) and run calc_overlap. -/
def calc_ent_overlap (e1 e2 : EntSt) : Option Vec2 :=
  calc_overlap
    { pos := e1.transform.pos, half_size := e1.transform.scaled_size * (1 / 2 : ℚ) }
    { pos := e2.transform.pos, half_size := e2.transform.scaled_size * (1 / 2 : ℚ) }

/-! ## The sweep of update_collision (collision.rs lines 54-164) -/

/-- The eligibility test of the outer i-loop (collision.rs lines 77-79):
the entity is scanned when it checks against some group, belongs to some
group, or its physics level is at least PASSIVE. -/
def sweepEligible (e : EntSt) : Bool :=
  decide (e.phy.check_against ≠ 0) || decide (e.phy.group ≠ 0) ||
    is_at_least e.phy.physics EntPhysics.PASSIVE

/-- The inner j-loop of update_collision (lines 85-160): scan forward from
entity i, stop at the first entity whose bounds-min on the sweep axis
exceeds entity i's bounds-max, and emit the pairs for which
calc_ent_overlap reports an overlap. -/
def scanFrom (axis : SweepAxis) (e1 : EntSt) (rest : List EntSt) : List (ℕ × ℕ) :=
  let max_pos := axis.get e1.transform.bounds.max
  ((rest.takeWhile (fun e2 => ¬ (axis.get e2.transform.bounds.min > max_pos))).filter
      (fun e2 => (calc_ent_overlap e1 e2).isSome)).map
    (fun e2 => (e1.id, e2.id))

/-- The outer i-loop of update_collision over an already-sorted roster. -/
def sweepPairsFrom (axis : SweepAxis) : List EntSt → List (ℕ × ℕ)
  | [] => []
  | e :: rest =>
    (if sweepEligible e then scanFrom axis e rest else []) ++ sweepPairsFrom axis rest

/-- One frame of the broad phase (update_collision, collision.rs lines
54-164), as the set of overlapping pairs it considers: sort the roster with
sort_entities_for_sweep, then sweep. -/
def update_collision_pairs (axis : SweepAxis) (ents : List EntSt) : List (ℕ × ℕ) :=
  sweepPairsFrom axis (sort_entities_for_sweep axis ents)

/-- The brute-force all-pairs AABB reference of the spec: every pair (in
roster order) whose axis-aligned bounds overlap under the closed-interval
test. -/
def brute_force_pairs : List EntSt → List (ℕ × ℕ)
  | [] => []
  | e :: rest =>
    ((rest.filter (fun f => e.transform.bounds.is_touching f.transform.bounds)).map
        (fun f => (e.id, f.id))) ++ brute_force_pairs rest

/-- A Physics component with plain ACTIVE collide mode (no WORLD/MOVE
bits), unit mass, a group bit so the sweep considers it, and the
physics.rs defaults otherwise. -/
def basePhysics : Physics :=
  { physics := EntCollidesMode.ACTIVE, on_ground := false, vel := ⟨0, 0⟩,
    accel := ⟨0, 0⟩, friction := ⟨0, 0⟩, gravity := 1, mass := 1, restitution := 0,
    max_ground_normal := 69 / 100, min_slide_normal := 1, group := 1,
    check_against := 0 }

/-- An axis-aligned entity at center (px, py) of size (sx, sy), scale 1. -/
def mkEnt (id : ℕ) (px py sx sy : ℚ) : EntSt :=
  { id := id,
    transform := { pos := ⟨px, py⟩, scale := ⟨1, 1⟩, size := ⟨sx, sy⟩ },
    phy := basePhysics }

/-- Three entities whose x-intervals are A = (1/4, 3/4), B = (15/16, 31/32),
C = (9/16, 5/8) (identical y-intervals (-1, 1)): A and C overlap. All three
bounds-min x values truncate to the same usize key 0. -/
def sweepFailInput : List EntSt :=
  [mkEnt 1 (1 / 2) 0 (1 / 2) 2, mkEnt 2 (61 / 64) 0 (1 / 32) 2,
   mkEnt 3 (19 / 32) 0 (1 / 16) 2]

/-- The spec's concrete scenario: entities at x-positions 0, 5, 100 with
half-width 3 (size 6) on the X sweep axis. -/
def sweepDemoInput : List EntSt :=
  [mkEnt 1 0 0 6 6, mkEnt 2 5 0 6 6, mkEnt 3 100 0 6 6]

/-! ## Engine state, commands, and the resolver (collision.rs, physics.rs) -/

/-- The Command enum of entities.rs (lines 164-190) restricted to the
Collide variant, the only one the code under verification emits; the other
variants carry payloads (JSON values, boxed Any) irrelevant to the
claims. -/
inductive Command where
  | collide (ent : ℕ) (normal : Vec2) (tr : Option Trace)
deriving DecidableEq, Repr

/-- The engine state the simulation core reads and writes: the tick delta,
world gravity, the collision map resource (None when absent), and the
deferred command queue (the Commands resource; eng.collide appends to
it). -/
structure Eng where
  tick : ℚ
  gravity : ℚ
  collision_map : Option CollisionMap
  commands : List Command

/-- eng.collide / Commands::collide (entities.rs line 130-132): append a
Collide command. -/
def Eng.collide (e : Eng) (ent : ℕ) (normal : Vec2) (tr : Option Trace) : Eng :=
  { e with commands := e.commands ++ [Command.collide ent normal tr] }

/-- handle_trace_result from collision.rs, lines 312-359: set the position
from the trace; on a hit, ZERO the velocity, enqueue a Collide command,
then run the restitution test (against the now-zeroed velocity), the
on_ground / slope-fudge rules, and project the velocity on the rotated
normal. Entities are assumed to carry their components (absent components
skip steps in the source; the claims' entities have them). -/
def handle_trace_result (eng : Eng) (ent : EntSt) (t : Trace) : Eng × EntSt :=
  let ent := { ent with transform := { ent.transform with pos := t.pos } }
  if !t.is_collide then (eng, ent)
  else
    let ent := { ent with phy := { ent.phy with vel := ⟨0, 0⟩ } }
    let eng := eng.collide ent.id t.normal (some t)
    let phy := ent.phy
    if 0 < phy.restitution ∧
        |dot phy.vel t.normal| * phy.restitution > ENTITY_MIN_BOUNCE_VELOCITY then
      let vn := t.normal * (dot phy.vel t.normal * 2)
      (eng, { ent with phy := { phy with vel := (phy.vel - vn) * phy.restitution } })
    else
      let phy :=
        if phy.gravity ≠ 0 ∧ t.normal.y < -phy.max_ground_normal then
          let phy2 := { phy with on_ground := true }
          if t.normal.y < -phy2.min_slide_normal then
            { phy2 with vel := ⟨phy2.vel.x, phy2.vel.x * t.normal.x⟩ }
          else phy2
        else phy
      let rotated_normal : Vec2 := ⟨-t.normal.y, t.normal.x⟩
      let vel_along_normal := dot phy.vel rotated_normal
      (eng, { ent with phy := { phy with vel := rotated_normal * vel_along_normal } })

/-- entity_move (entity.rs lines 488-511, the revision the resolver calls
with (eng, ent, vstep)): a WORLD-colliding entity traces against the map,
hands the result to handle_trace_result, and slides along the hit tangent
with a second trace when velocity remains; otherwise the position is
translated directly. -/
def entity_move (eng : Eng) (ent : EntSt) (vstep : Vec2) : Eng × EntSt :=
  if flagsContains ent.phy.physics EntPhysics.WORLD ∧ eng.collision_map.isSome then
    match eng.collision_map with
    | some map =>
      let t := trace map ent.transform.pos vstep ent.transform.scaled_size
      let r1 := handle_trace_result eng ent t
      let eng1 := r1.1
      let ent1 := r1.2
      if t.length < 1 then
        let rotated_normal : Vec2 := ⟨-t.normal.y, t.normal.x⟩
        let vel_along_normal := dot vstep rotated_normal
        if vel_along_normal ≠ 0 then
          let remaining := 1 - t.length
          let vstep2 := rotated_normal * (vel_along_normal * remaining)
          let t2 := trace map ent1.transform.pos vstep2 ent1.transform.scaled_size
          handle_trace_result eng1 ent1 t2
        else (eng1, ent1)
      else (eng1, ent1)
    | none => (eng, ent)
  else
    (eng, { ent with transform :=
      { ent.transform with pos := ent.transform.pos + vstep } })

/-- The move-share computation of resolve_collision (collision.rs lines
182-198): LITE / FIXED checks first, otherwise mass-proportional. -/
def moveShares (phy_a phy_b : Physics) : ℚ × ℚ :=
  if is_collide_mode phy_a.physics EntCollidesMode.LITE ||
      is_collide_mode phy_b.physics EntCollidesMode.FIXED then
    (1, 0)
  else if is_collide_mode phy_a.physics EntCollidesMode.FIXED ||
      is_collide_mode phy_b.physics EntCollidesMode.LITE then
    (0, 1)
  else
    let total_mass := phy_a.mass + phy_b.mass
    (phy_b.mass / total_mass, phy_a.mass / total_mass)

/-- entities_separate_on_x_axis from collision.rs, lines 237-268: blend the
mover's x velocity by the move shares (the right side blends with the
left's already-updated velocity), apply a bounce when
impact_velocity * restitution exceeds the threshold, and move each mover by
its share of the overlap along x. -/
def entities_separate_on_x_axis (eng : Eng) (ent_left ent_right : EntSt)
    (left_move right_move overlap : ℚ) : Eng × EntSt × EntSt :=
  let impact_velocity := ent_left.phy.vel.x - ent_right.phy.vel.x
  let step1 : Eng × EntSt :=
    if left_move > 0 then
      let lv := ent_right.phy.vel.x * left_move + ent_left.phy.vel.x * right_move
      let bounce := impact_velocity * ent_left.phy.restitution
      let lv := if bounce > ENTITY_MIN_BOUNCE_VELOCITY then lv - bounce else lv
      let left :=
        { ent_left with phy := { ent_left.phy with vel := ⟨lv, ent_left.phy.vel.y⟩ } }
      entity_move eng left ⟨-overlap * left_move, 0⟩
    else (eng, ent_left)
  let step2 : Eng × EntSt :=
    if right_move > 0 then
      let rv := step1.2.phy.vel.x * right_move + ent_right.phy.vel.x * left_move
      let bounce := impact_velocity * ent_right.phy.restitution
      let rv := if bounce > ENTITY_MIN_BOUNCE_VELOCITY then rv + bounce else rv
      let right :=
        { ent_right with phy := { ent_right.phy with vel := ⟨rv, ent_right.phy.vel.y⟩ } }
      entity_move step1.1 right ⟨overlap * right_move, 0⟩
    else (step1.1, ent_right)
  (step2.1, step1.2, step2.2)

/-- entities_separate_on_y_axis from collision.rs, lines 270-310: when the
bottom entity is on the ground the top takes the whole correction; the top
either bounces or lands (on_ground := true, inheriting
bottom.vel.x * ticks of horizontal drift); the bottom blends against the
top's saved pre-update y velocity. -/
def entities_separate_on_y_axis (eng : Eng) (ent_top ent_bottom : EntSt)
    (top_move0 bottom_move0 overlap ticks : ℚ) : Eng × EntSt × EntSt :=
  let moves : ℚ × ℚ :=
    if ent_bottom.phy.on_ground ∧ top_move0 > 0 then (1, 0) else (top_move0, bottom_move0)
  let top_move := moves.1
  let bottom_move := moves.2
  let impact_velocity := ent_top.phy.vel.y - ent_bottom.phy.vel.y
  let top_vel_y := ent_top.phy.vel.y
  let step1 : Eng × EntSt :=
    if top_move > 0 then
      let tv := ent_top.phy.vel.y * bottom_move + ent_bottom.phy.vel.y * top_move
      let bounce := impact_velocity * ent_top.phy.restitution
      if bounce > ENTITY_MIN_BOUNCE_VELOCITY then
        let top :=
          { ent_top with phy :=
            { ent_top.phy with vel := ⟨ent_top.phy.vel.x, tv - bounce⟩ } }
        entity_move eng top ⟨0, -overlap * top_move⟩
      else
        let top :=
          { ent_top with phy :=
            { ent_top.phy with vel := ⟨ent_top.phy.vel.x, tv⟩, on_ground := true } }
        entity_move eng top ⟨ent_bottom.phy.vel.x * ticks, -overlap * top_move⟩
    else (eng, ent_top)
  let step2 : Eng × EntSt :=
    if bottom_move > 0 then
      let bv := ent_bottom.phy.vel.y * top_move + top_vel_y * bottom_move
      let bounce := impact_velocity * ent_bottom.phy.restitution
      let bv := if bounce > ENTITY_MIN_BOUNCE_VELOCITY then bv + bounce else bv
      let bottom :=
        { ent_bottom with phy :=
          { ent_bottom.phy with vel := ⟨ent_bottom.phy.vel.x, bv⟩ } }
      entity_move step1.1 bottom ⟨0, overlap * bottom_move⟩
    else (step1.1, ent_bottom)
  (step2.1, step1.2, step2.2)

/-- resolve_collision from collision.rs, lines 167-235: compute the move
shares, then branch on the overlap vector — when |overlap_y| > |overlap_x|
separate on the X axis (sign of overlap_x decides left/right), otherwise on
the Y axis (sign of overlap_y decides top/bottom) — and enqueue the two
opposite Collide normals. Returns the engine and the updated (a, b). -/
def resolve_collision (eng : Eng) (a b : EntSt) (overlap : Vec2) : Eng × EntSt × EntSt :=
  let shares := moveShares a.phy b.phy
  let a_move := shares.1
  let b_move := shares.2
  let overlap_x := overlap.x
  let overlap_y := overlap.y
  if |overlap_y| > |overlap_x| then
    if overlap_x > 0 then
      let r := entities_separate_on_x_axis eng a b a_move b_move |overlap_x|
      let eng2 := (r.1.collide a.id ⟨-1, 0⟩ none).collide b.id ⟨1, 0⟩ none
      (eng2, r.2.1, r.2.2)
    else if overlap_x < 0 then
      let r := entities_separate_on_x_axis eng b a b_move a_move |overlap_x|
      let eng2 := (r.1.collide a.id ⟨1, 0⟩ none).collide b.id ⟨-1, 0⟩ none
      (eng2, r.2.2, r.2.1)
    else (eng, a, b)
  else if overlap_y > 0 then
    let r := entities_separate_on_y_axis eng a b a_move b_move |overlap_y| eng.tick
    let eng2 := (r.1.collide a.id ⟨0, -1⟩ none).collide b.id ⟨0, 1⟩ none
    (eng2, r.2.1, r.2.2)
  else if overlap_y < 0 then
    let r := entities_separate_on_y_axis eng b a b_move a_move |overlap_y| eng.tick
    let eng2 := (r.1.collide a.id ⟨0, 1⟩ none).collide b.id ⟨0, -1⟩ none
    (eng2, r.2.2, r.2.1)
  else (eng, a, b)

/-- entity_base_update from physics.rs, lines 112-137: entities without
MOVE are untouched; otherwise integrate gravity into vel.y, apply the
clamped friction factor and acceleration, form the trapezoidal half step
from the pre-gravity and post-update velocities, reset on_ground, and hand
the half step to entity_move. -/
def entity_base_update (eng : Eng) (ent : EntSt) : Eng × EntSt :=
  if !flagsContains ent.phy.physics EntPhysics.MOVE then (eng, ent)
  else
    let vel := ent.phy.vel
    let v1 : Vec2 := ⟨vel.x, vel.y + eng.gravity * ent.phy.gravity * eng.tick⟩
    let fric : Vec2 :=
      ⟨min (ent.phy.friction.x * eng.tick) 1, min (ent.phy.friction.y * eng.tick) 1⟩
    let v2 := v1 + (ent.phy.accel * eng.tick - v1 * fric)
    let vstep := (vel + v2) * (eng.tick * (1 / 2 : ℚ))
    let ent2 := { ent with phy := { ent.phy with vel := v2, on_ground := false } }
    entity_move eng ent2 vstep

/-! ## Concrete resolver scenarios -/

/-- A light entity: unit mass, velocity (12, 0), plain ACTIVE mode. -/
def entLight : EntSt :=
  { id := 1,
    transform := { pos := ⟨0, 0⟩, scale := ⟨1, 1⟩, size := ⟨2, 2⟩ },
    phy := { basePhysics with vel := ⟨12, 0⟩ } }

/-- A heavy entity: mass 3, the equal opposite velocity (-12, 0). -/
def entHeavy : EntSt :=
  { id := 2,
    transform := { pos := ⟨9 / 10, 0⟩, scale := ⟨1, 1⟩, size := ⟨2, 2⟩ },
    phy := { basePhysics with vel := ⟨-12, 0⟩, mass := 3 } }

/-- An engine state without a collision map. -/
def engB : Eng := { tick := 1 / 60, gravity := 100, collision_map := none, commands := [] }

/-- A bouncy entity falling at (0, 100) with restitution 1. -/
def bounceEnt : EntSt :=
  { id := 7,
    transform := { pos := ⟨50, 50⟩, scale := ⟨1, 1⟩, size := ⟨2, 2⟩ },
    phy := { basePhysics with restitution := 1, vel := ⟨0, 100⟩ } }

/-- A trace that hit the ground: upward normal (0, -1). -/
def bounceTrace : Trace :=
  { tile := 1, tile_pos := (3, 4), length := 1 / 2, pos := ⟨50, 40⟩, normal := ⟨0, -1⟩ }

/-! ## Theorems -/

/-! ## Component lemmas for Vec2 arithmetic -/

@[simp] theorem Vec2.add_x (a b : Vec2) : (a + b).x = a.x + b.x := rfl

@[simp] theorem Vec2.add_y (a b : Vec2) : (a + b).y = a.y + b.y := rfl

@[simp] theorem Vec2.sub_x (a b : Vec2) : (a - b).x = a.x - b.x := rfl

@[simp] theorem Vec2.sub_y (a b : Vec2) : (a - b).y = a.y - b.y := rfl

@[simp] theorem Vec2.neg_x (a : Vec2) : (-a).x = -a.x := rfl

@[simp] theorem Vec2.neg_y (a : Vec2) : (-a).y = -a.y := rfl

@[simp] theorem Vec2.mul_x (a b : Vec2) : (a * b).x = a.x * b.x := rfl

@[simp] theorem Vec2.mul_y (a b : Vec2) : (a * b).y = a.y * b.y := rfl

@[simp] theorem Vec2.smul_x (a : Vec2) (s : ℚ) : (a * s).x = a.x * s := rfl

@[simp] theorem Vec2.smul_y (a : Vec2) (s : ℚ) : (a * s).y = a.y * s := rfl

@[simp] theorem Vec2.div_x (a : Vec2) (s : ℚ) : (a / s).x = a.x / s := rfl

@[simp] theorem Vec2.div_y (a : Vec2) (s : ℚ) : (a / s).y = a.y / s := rfl

theorem Vec2.ext (a b : Vec2) (hx : a.x = b.x) (hy : a.y = b.y) : a = b := by
  cases a
  cases b
  cases hx
  cases hy
  rfl

/-! ## Claim C10: out-of-map tile lookups are total and non-solid -/

/-- C10: for every CollisionMap and every tile coordinate outside the map
rectangle, CollisionMap::get returns None; under the default collision rule
is_collide is false there; and consequently check_tile leaves the trace
result untouched for such tiles, so the tracer treats every tile outside
the map as empty. -/
theorem out_of_map_lookups_are_empty (m : CollisionMap) (p : ℤ × ℤ)
    (hrule : m.collision_rule = defaultCollisionRule)
    (hout : p.1 < 0 ∨ p.2 < 0 ∨ p.1 ≥ (m.size.1 : ℤ) ∨ p.2 ≥ (m.size.2 : ℤ)) :
    m.get p = none ∧ m.is_collide p = false ∧
      ∀ pos vel size res, check_tile m pos vel size p res = res := by
  have hget : m.get p = none := by
    unfold CollisionMap.get mapGet
    exact if_pos hout
  have hget2 : mapGet m.size m.data p = none := hget
  have hcol : m.is_collide p = false := by
    simp only [CollisionMap.is_collide, hrule, defaultCollisionRule]
    rw [hget2]
  refine ⟨hget, hcol, fun pos vel size res => ?_⟩
  unfold check_tile
  rw [hcol]
  simp

/-- Witness for C10 at a concrete map and coordinate. -/
theorem out_of_map_lookups_are_empty_witness :
    (CollisionMap.mk (2, 2) 8 [0, 1, 2, 3] defaultCollisionRule).get (-1, 0) = none ∧
      (CollisionMap.mk (2, 2) 8 [0, 1, 2, 3] defaultCollisionRule).is_collide (-1, 0) = false ∧
      ∀ pos vel size res,
        check_tile (CollisionMap.mk (2, 2) 8 [0, 1, 2, 3] defaultCollisionRule)
          pos vel size (-1, 0) res = res :=
  out_of_map_lookups_are_empty _ _ rfl (Or.inl (by norm_num))

/-! ## Claim C4: trace result range invariant -/

/-- The range invariant of a trace result: length stays in the unit
interval, and a result that reports no hit still carries the default
length 1. -/
def TraceInv (t : Trace) : Prop :=
  0 ≤ t.length ∧ t.length ≤ 1 ∧ (t.tile = 0 → t.length = 1)

theorem inv_ite_imp (c : Prop) [Decidable c] (a b : Trace)
    (ha : c → TraceInv a) (hb : ¬c → TraceInv b) : TraceInv (if c then a else b) := by
  split
  · next hc => exact ha hc
  · next hc => exact hb hc

theorem resolve_full_tile_inv (m : CollisionMap) (pos vel size : Vec2)
    (tp : ℤ × ℤ) (res : Trace) (h : TraceInv res) :
    TraceInv (resolve_full_tile m pos vel size tp res) := by
  obtain ⟨h0, h1, h2⟩ := h
  simp only [resolve_full_tile]
  refine inv_ite_imp _ _ _
    (fun hs => inv_ite_imp _ _ _ (fun _ => ⟨h0, h1, h2⟩)
      (fun hg => ⟨abs_nonneg _, le_trans (not_lt.mp hg) h1, by simp⟩))
    (fun hs => inv_ite_imp _ _ _ (fun _ => ⟨h0, h1, h2⟩)
      (fun hg => ⟨abs_nonneg _, le_trans (not_lt.mp hg) h1, by simp⟩))

theorem check_tile_inv (m : CollisionMap) (pos vel size : Vec2) (tp : ℤ × ℤ)
    (res : Trace) (h : TraceInv res) :
    TraceInv (check_tile m pos vel size tp res) := by
  unfold check_tile
  split
  · exact resolve_full_tile_inv m pos vel size tp res h
  · exact h

theorem foldl_trace_inv (f : Trace → ℕ → Trace)
    (hf : ∀ r t, TraceInv r → TraceInv (f r t)) :
    ∀ (l : List ℕ) (r : Trace), TraceInv r → TraceInv (l.foldl f r) := by
  intro l
  induction l with
  | nil => intro r h; exact h
  | cons a l ih => intro r h; exact ih (f r a) (hf r a h)

theorem checkTileColumn_inv (c : TraceCtx) (tp : ℤ × ℤ) (r : Trace) (t : ℕ)
    (h : TraceInv r) : TraceInv (checkTileColumn c tp r t) :=
  check_tile_inv _ _ _ _ _ _ h

theorem checkTileRow_inv (c : TraceCtx) (tp : ℤ × ℤ) (r : Trace) (t : ℕ)
    (h : TraceInv r) : TraceInv (checkTileRow c tp r t) :=
  check_tile_inv _ _ _ _ _ _ h

theorem traceScanColumn_inv (c : TraceCtx) (i : ℕ) (tp : ℤ × ℤ) (res : Trace)
    (h : TraceInv res) : TraceInv (traceScanColumn c i tp res) := by
  unfold traceScanColumn
  exact foldl_trace_inv (checkTileColumn c tp) (checkTileColumn_inv c tp) _ res h

theorem traceScanRow_inv (c : TraceCtx) (i : ℕ) (tp : ℤ × ℤ) (ctc : ℕ) (res : Trace)
    (h : TraceInv res) : TraceInv (traceScanRow c i tp ctc res) := by
  unfold traceScanRow
  exact foldl_trace_inv (checkTileRow c tp) (checkTileRow_inv c tp) _ res h

theorem ite_trace_inv (b : Prop) [Decidable b] (f : Trace → Trace)
    (hf : ∀ r, TraceInv r → TraceInv (f r)) (r : Trace) (h : TraceInv r) :
    TraceInv (if b then f r else r) := by
  split
  · exact hf r h
  · exact h

theorem traceStep_inv (c : TraceCtx) (i : ℕ) (last : ℤ × ℤ) (res : Trace)
    (h : TraceInv res) : TraceInv (traceStep c i last res).1 := by
  simp only [traceStep]
  dsimp only
  exact ite_trace_inv _ _ (fun r hr => traceScanRow_inv _ _ _ _ r hr) _
    (ite_trace_inv _ _ (fun r hr => traceScanColumn_inv _ _ _ r hr) res h)

theorem traceLoop_inv (c : TraceCtx) :
    ∀ (fuel i : ℕ) (last : ℤ × ℤ) (extra : Bool) (res : Trace),
      TraceInv res → TraceInv (traceLoop c fuel i last extra res) := by
  intro fuel
  induction fuel with
  | zero => intro i last extra res h; exact h
  | succ fuel ih =>
    intro i last extra res h
    rw [traceLoop]
    split
    · exact traceStep_inv c i last res h
    · exact ih _ _ _ _ (traceStep_inv c i last res h)

/-- C4: for every map, start position, displacement and size, the trace
result's length lies in the closed interval 0..1, and whenever the trace
reports no hit (tile = 0) the length is exactly 1. -/
theorem trace_result_range (m : CollisionMap) (pos vel size : Vec2) :
    0 ≤ (trace m pos vel size).length ∧ (trace m pos vel size).length ≤ 1 ∧
      ((trace m pos vel size).tile = 0 → (trace m pos vel size).length = 1) := by
  show TraceInv (trace m pos vel size)
  simp only [trace]
  refine inv_ite_imp _ _ _ (fun _ => ⟨zero_le_one, le_refl _, fun _ => rfl⟩)
    (fun _ => inv_ite_imp _ _ _ (fun _ => ⟨zero_le_one, le_refl _, fun _ => rfl⟩)
      (fun _ => traceLoop_inv _ _ _ _ _ _ ⟨zero_le_one, le_refl _, fun _ => rfl⟩))

/-! ## Claim C3: trace over an all-zero map is the identity displacement -/

theorem ite_eq_of (c : Prop) [Decidable c] (a b r : Trace)
    (ha : c → a = r) (hb : ¬c → b = r) : (if c then a else b) = r := by
  split
  · next hc => exact ha hc
  · next hc => exact hb hc

theorem vec2_cancel (p v s : Vec2) : p - s + v + s = p + v := by
  cases p
  cases v
  cases s
  show Vec2.mk _ _ = Vec2.mk _ _
  simp only [Vec2.mk.injEq, Vec2.sub_x, Vec2.sub_y, Vec2.add_x, Vec2.add_y]
  constructor <;> ring

theorem is_collide_of_zero_data (m : CollisionMap)
    (hrule : m.collision_rule = defaultCollisionRule)
    (hzero : ∀ x ∈ m.data, x = 0) : ∀ p, m.is_collide p = false := by
  intro p
  simp only [CollisionMap.is_collide, hrule, defaultCollisionRule]
  cases hget : mapGet m.size m.data p with
  | none => rfl
  | some t =>
    have ht : t ∈ m.data := by
      unfold mapGet at hget
      split at hget
      · exact absurd hget (by simp)
      · exact List.get?_mem hget
    simp [hzero t ht]

theorem check_tile_id (m : CollisionMap) (hcol : ∀ p, m.is_collide p = false)
    (pos vel size : Vec2) (tp : ℤ × ℤ) (res : Trace) :
    check_tile m pos vel size tp res = res := by
  unfold check_tile
  rw [hcol]
  simp

theorem foldl_fixed (f : Trace → ℕ → Trace) (hf : ∀ r t, f r t = r) :
    ∀ (l : List ℕ) (r : Trace), l.foldl f r = r := by
  intro l
  induction l with
  | nil => intro r; rfl
  | cons a l ih => intro r; show l.foldl f (f r a) = r; rw [hf]; exact ih r

theorem traceScanColumn_id (c : TraceCtx) (hcol : ∀ p, c.map.is_collide p = false)
    (i : ℕ) (tp : ℤ × ℤ) (res : Trace) : traceScanColumn c i tp res = res := by
  unfold traceScanColumn
  exact foldl_fixed _ (fun r t => check_tile_id c.map hcol _ _ _ _ r) _ res

theorem traceScanRow_id (c : TraceCtx) (hcol : ∀ p, c.map.is_collide p = false)
    (i : ℕ) (tp : ℤ × ℤ) (ctc : ℕ) (res : Trace) : traceScanRow c i tp ctc res = res := by
  unfold traceScanRow
  exact foldl_fixed _ (fun r t => check_tile_id c.map hcol _ _ _ _ r) _ res

theorem traceStep_fst (c : TraceCtx) (hcol : ∀ p, c.map.is_collide p = false)
    (i : ℕ) (last : ℤ × ℤ) (res : Trace) : (traceStep c i last res).1 = res := by
  simp only [traceStep]
  simp only [traceScanColumn_id c hcol, traceScanRow_id c hcol, ite_self]

theorem traceLoop_zero_map (c : TraceCtx) (hcol : ∀ p, c.map.is_collide p = false) :
    ∀ (fuel i : ℕ) (last : ℤ × ℤ) (extra : Bool) (res : Trace), res.tile = 0 →
      traceLoop c fuel i last extra res = { res with pos := res.pos + c.half_size } := by
  intro fuel
  induction fuel with
  | zero => intro i last extra res h; rfl
  | succ fuel ih =>
    intro i last extra res h
    rw [traceLoop]
    simp only [traceStep_fst c hcol]
    rw [if_neg (by rw [h]; norm_num)]
    exact ih _ _ _ _ h

/-- C3: trace over a CollisionMap whose tiles are all zero (so nothing
satisfies the default collision rule) reports no hit, full length 1, and a
final position of exactly pos + vel, for every start, displacement and
size. -/
theorem trace_zero_map_full_displacement (m : CollisionMap)
    (hrule : m.collision_rule = defaultCollisionRule)
    (hzero : ∀ x ∈ m.data, x = 0) (pos vel size : Vec2) :
    trace m pos vel size =
      { tile := 0, tile_pos := (0, 0), length := 1, pos := pos + vel,
        normal := ⟨0, 0⟩ } := by
  have hcol : ∀ p, m.is_collide p = false := is_collide_of_zero_data m hrule hzero
  simp only [trace]
  refine ite_eq_of _ _ _ _ (fun _ => ?_) (fun _ => ite_eq_of _ _ _ _ (fun _ => ?_)
    (fun _ => ?_))
  · simp only [Trace.default, Trace.mk.injEq, true_and, and_true]
    exact vec2_cancel pos vel (size * (1 / 2 : ℚ))
  · simp only [Trace.default, Trace.mk.injEq, true_and, and_true]
    exact vec2_cancel pos vel (size * (1 / 2 : ℚ))
  · rw [traceLoop_zero_map _ hcol _ _ _ _ _ rfl]
    simp only [Trace.default, Trace.mk.injEq, true_and, and_true]
    exact vec2_cancel pos vel (size * (1 / 2 : ℚ))

/-- Witness for C3 at a concrete all-zero 2x2 map, start (3,3),
displacement (5,2), size (2,2). -/
theorem trace_zero_map_full_displacement_witness :
    trace (CollisionMap.mk (2, 2) 8 [0, 0, 0, 0] defaultCollisionRule)
        ⟨3, 3⟩ ⟨5, 2⟩ ⟨2, 2⟩ =
      { tile := 0, tile_pos := (0, 0), length := 1,
        pos := Vec2.mk 3 3 + Vec2.mk 5 2, normal := ⟨0, 0⟩ } :=
  trace_zero_map_full_displacement _ rfl (by decide) ⟨3, 3⟩ ⟨5, 2⟩ ⟨2, 2⟩

/-- Witness for C4: at a concrete map and zero displacement the trace
reports no hit, so by the range invariant its length is exactly 1. -/
theorem trace_result_range_witness :
    (trace (CollisionMap.mk (2, 2) 8 [0, 1, 1, 1] defaultCollisionRule)
        ⟨3, 3⟩ ⟨0, 0⟩ ⟨2, 2⟩).length = 1 :=
  (trace_result_range _ _ _ _).2.2 (by with_unfolding_all rfl)

/-- C9 counterexample: requesting the same existing handle twice through
get_many_mut succeeds with two (aliased) mutable borrows, and many_mut does
not panic either — the claim that duplicate handles always fail is false. -/
theorem many_mut_duplicate_succeeds :
    get_many_mut (World.mk [0]) [0, 0] = Except.ok [0, 0] ∧
      many_mut (World.mk [0]) [0, 0] = some [0, 0] := by
  constructor <;> rfl

theorem collectExcept_map (w : World) :
    ∀ ents : List ℕ,
      collectExcept (ents.map
          (fun ent => if w.containsEnt ent then Except.ok ent else Except.error ())) =
        if ents.all (fun e => w.containsEnt e) then Except.ok ents else Except.error () := by
  intro ents
  induction ents with
  | nil => rfl
  | cons a l ih =>
    simp only [List.map_cons, List.all_cons, collectExcept]
    by_cases h : w.containsEnt a = true
    · rw [if_pos h, ih]
      simp only [h]
      by_cases h2 : (l.all fun e => w.containsEnt e) = true
      · simp only [h2]; simp
      · simp only [Bool.not_eq_true] at h2; simp only [h2]; simp
    · simp only [Bool.not_eq_true] at h
      simp only [h]
      simp

theorem collectOption_map (w : World) :
    ∀ ents : List ℕ,
      collectOption (ents.map
          (fun ent => if w.containsEnt ent then some ent else none)) =
        if ents.all (fun e => w.containsEnt e) then some ents else none := by
  intro ents
  induction ents with
  | nil => rfl
  | cons a l ih =>
    simp only [List.map_cons, List.all_cons, collectOption]
    by_cases h : w.containsEnt a = true
    · rw [if_pos h, ih]
      simp only [h]
      by_cases h2 : (l.all fun e => w.containsEnt e) = true
      · simp only [h2]; simp
      · simp only [Bool.not_eq_true] at h2; simp only [h2]; simp
    · simp only [Bool.not_eq_true] at h
      simp only [h]
      simp

/-- C9 amended: get_many_mut and many_mut perform no duplicate-handle
check. They succeed — returning one mutable borrow per requested handle,
aliased when a handle repeats — exactly when every requested handle exists
in the world, and fail (Err, respectively panic) exactly when some
requested handle does not exist; duplication is irrelevant. -/
theorem many_mut_no_duplicate_check (w : World) (ents : List ℕ) :
    get_many_mut w ents =
        (if ents.all (fun e => w.containsEnt e) then Except.ok ents else Except.error ()) ∧
      many_mut w ents =
        (if ents.all (fun e => w.containsEnt e) then some ents else none) :=
  ⟨collectExcept_map w ents, collectOption_map w ents⟩

/-! ## Claim C1: broad-phase completeness -/

/-- C1: the sweep is NOT complete against the brute-force AABB test. On
sweepFailInput the three bounds-min values share the usize sort key 0, the
anti-stable insertion sort reverses the roster to (C, B, A), and the scan
from C breaks at B (B's bounds-min 15/16 exceeds C's bounds-max 5/8) before
reaching A — so the genuinely overlapping pair (A, C) is never considered
while brute force finds it. On the spec's own scenario (x = 0, 5, 100,
half-width 3) the sweep and brute force agree on exactly the pair (1, 2). -/
theorem sweep_misses_overlapping_pair :
    (update_collision_pairs SweepAxis.X sweepFailInput = [] ∧
        brute_force_pairs sweepFailInput = [(1, 3)]) ∧
      update_collision_pairs SweepAxis.X sweepDemoInput = [(1, 2)] ∧
        brute_force_pairs sweepDemoInput = [(1, 2)] :=
  ⟨⟨by with_unfolding_all rfl, by with_unfolding_all rfl⟩,
    by with_unfolding_all rfl, by with_unfolding_all rfl⟩

/-! ## Claim C5: mass-proportional move shares -/

theorem moveShares_plain (phy_a phy_b : Physics)
    (ha1 : is_collide_mode phy_a.physics EntCollidesMode.LITE = false)
    (hb1 : is_collide_mode phy_b.physics EntCollidesMode.FIXED = false)
    (ha2 : is_collide_mode phy_a.physics EntCollidesMode.FIXED = false)
    (hb2 : is_collide_mode phy_b.physics EntCollidesMode.LITE = false) :
    moveShares phy_a phy_b =
      (phy_b.mass / (phy_a.mass + phy_b.mass), phy_a.mass / (phy_a.mass + phy_b.mass)) := by
  simp [moveShares, ha1, hb1, ha2, hb2]

/-- C5: when neither entity is LITE or FIXED, resolve_collision's move
shares are a_move = mass_b/(mass_a+mass_b) and b_move =
mass_a/(mass_a+mass_b), summing to 1; and in the concrete head-on collision
of masses 1 and 3 with equal opposite velocities the light body's
positional correction (3) is exactly 3 times the heavy body's (1) for the
same total overlap. -/
theorem resolve_collision_mass_shares (phy_a phy_b : Physics)
    (ha1 : is_collide_mode phy_a.physics EntCollidesMode.LITE = false)
    (hb1 : is_collide_mode phy_b.physics EntCollidesMode.FIXED = false)
    (ha2 : is_collide_mode phy_a.physics EntCollidesMode.FIXED = false)
    (hb2 : is_collide_mode phy_b.physics EntCollidesMode.LITE = false)
    (hm : 0 < phy_a.mass + phy_b.mass) :
    moveShares phy_a phy_b =
        (phy_b.mass / (phy_a.mass + phy_b.mass),
          phy_a.mass / (phy_a.mass + phy_b.mass)) ∧
      (moveShares phy_a phy_b).1 + (moveShares phy_a phy_b).2 = 1 ∧
      entLight.transform.pos.x -
          (resolve_collision engB entLight entHeavy ⟨4, -50⟩).2.1.transform.pos.x =
        3 * ((resolve_collision engB entLight entHeavy ⟨4, -50⟩).2.2.transform.pos.x -
          entHeavy.transform.pos.x) := by
  have hshares := moveShares_plain phy_a phy_b ha1 hb1 ha2 hb2
  refine ⟨hshares, ?_, by with_unfolding_all rfl⟩
  rw [hshares]
  show phy_b.mass / (phy_a.mass + phy_b.mass) + phy_a.mass / (phy_a.mass + phy_b.mass) = 1
  rw [div_add_div_same, add_comm phy_b.mass phy_a.mass, div_self (ne_of_gt hm)]

/-- Witness for C5 at the concrete Physics values of the 1-vs-3 head-on
scenario. -/
theorem resolve_collision_mass_shares_witness :
    moveShares entLight.phy entHeavy.phy =
        (entHeavy.phy.mass / (entLight.phy.mass + entHeavy.phy.mass),
          entLight.phy.mass / (entLight.phy.mass + entHeavy.phy.mass)) ∧
      (moveShares entLight.phy entHeavy.phy).1 + (moveShares entLight.phy entHeavy.phy).2 = 1 ∧
      entLight.transform.pos.x -
          (resolve_collision engB entLight entHeavy ⟨4, -50⟩).2.1.transform.pos.x =
        3 * ((resolve_collision engB entLight entHeavy ⟨4, -50⟩).2.2.transform.pos.x -
          entHeavy.transform.pos.x) :=
  resolve_collision_mass_shares entLight.phy entHeavy.phy
    (by with_unfolding_all rfl) (by with_unfolding_all rfl)
    (by with_unfolding_all rfl) (by with_unfolding_all rfl)
    (by norm_num [entLight, entHeavy, basePhysics])

/-! ## Claim C8: the world-hit handler zeroes velocity before the
restitution logic -/

/-- C8: the handler contradicts the claimed restitution rule. For the
concrete bouncy entity falling at (0, 100) with restitution 1 onto ground
normal (0, -1), the incoming velocity against the normal times restitution
(100) exceeds the minimum bounce threshold (10), so the claim says a bounce
is applied; but handle_trace_result zeroes the velocity first (collision.rs
lines 320-322), so the bounce test sees zero velocity and the entity ends
with velocity (0, 0) (and on_ground set). -/
theorem handle_trace_result_kills_bounce :
    |dot bounceEnt.phy.vel bounceTrace.normal| * bounceEnt.phy.restitution >
        ENTITY_MIN_BOUNCE_VELOCITY ∧
      (handle_trace_result engB bounceEnt bounceTrace).2.phy.vel = ⟨0, 0⟩ ∧
      (handle_trace_result engB bounceEnt bounceTrace).2.phy.on_ground = true ∧
      (handle_trace_result engB bounceEnt bounceTrace).2.phy.vel ≠
        (bounceEnt.phy.vel - bounceTrace.normal * (dot bounceEnt.phy.vel bounceTrace.normal * 2)) *
          bounceEnt.phy.restitution := by
  refine ⟨?_, by with_unfolding_all rfl, by with_unfolding_all rfl, ?_⟩
  · show |dot (Vec2.mk 0 100) (Vec2.mk 0 (-1))| * (1 : ℚ) > (10 : ℚ)
    norm_num [dot]
  · have h1 : (handle_trace_result engB bounceEnt bounceTrace).2.phy.vel = ⟨0, 0⟩ := by
      with_unfolding_all rfl
    have h2 : (bounceEnt.phy.vel -
          bounceTrace.normal * (dot bounceEnt.phy.vel bounceTrace.normal * 2)) *
          bounceEnt.phy.restitution = ⟨0, -100⟩ := by
      with_unfolding_all rfl
    rw [h1, h2]
    intro hc
    rw [Vec2.mk.injEq] at hc
    norm_num at hc

/-! ## Claim C6: which axis does resolve_collision separate on? -/

theorem entity_move_direct (eng : Eng) (ent : EntSt) (v : Vec2)
    (hw : flagsContains ent.phy.physics EntPhysics.WORLD = false) :
    entity_move eng ent v =
      (eng, { ent with transform :=
        { ent.transform with pos := ent.transform.pos + v } }) := by
  unfold entity_move
  rw [if_neg]
  simp [hw]

theorem entities_separate_on_x_axis_plain (eng : Eng) (l r : EntSt) (lm rm ov : ℚ)
    (hl : 0 < lm) (hr : 0 < rm)
    (hbl : ¬ ((l.phy.vel.x - r.phy.vel.x) * l.phy.restitution > ENTITY_MIN_BOUNCE_VELOCITY))
    (hbr : ¬ ((l.phy.vel.x - r.phy.vel.x) * r.phy.restitution > ENTITY_MIN_BOUNCE_VELOCITY))
    (hwl : flagsContains l.phy.physics EntPhysics.WORLD = false)
    (hwr : flagsContains r.phy.physics EntPhysics.WORLD = false) :
    entities_separate_on_x_axis eng l r lm rm ov =
      (eng,
        { l with
          transform := { l.transform with pos := l.transform.pos + ⟨-ov * lm, 0⟩ },
          phy := { l.phy with vel := ⟨r.phy.vel.x * lm + l.phy.vel.x * rm, l.phy.vel.y⟩ } },
        { r with
          transform := { r.transform with pos := r.transform.pos + ⟨ov * rm, 0⟩ },
          phy := { r.phy with vel :=
            ⟨(r.phy.vel.x * lm + l.phy.vel.x * rm) * rm + r.phy.vel.x * lm,
              r.phy.vel.y⟩ } }) := by
  simp only [entities_separate_on_x_axis]
  rw [if_pos hl, if_neg hbl, if_pos hr, if_neg hbr]
  simp only [entity_move_direct, hwl, hwr]

/-- C6 counterexample: with overlap vector (4, -50) — larger-magnitude axis
Y — resolve_collision does NOT separate along Y: the enqueued normals are
not the Y unit normals, and the position correction is along X (the light
body's x moves by -3 while its y is untouched). -/
theorem resolve_collision_larger_axis_counterexample :
    (resolve_collision engB entLight entHeavy ⟨4, -50⟩).1.commands ≠
        [Command.collide 1 ⟨0, -1⟩ none, Command.collide 2 ⟨0, 1⟩ none] ∧
      (resolve_collision engB entLight entHeavy ⟨4, -50⟩).2.1.transform.pos =
        ⟨entLight.transform.pos.x - 3, entLight.transform.pos.y⟩ := by
  constructor
  · have h : (resolve_collision engB entLight entHeavy ⟨4, -50⟩).1.commands =
        [Command.collide 1 ⟨-1, 0⟩ none, Command.collide 2 ⟨1, 0⟩ none] := by
      with_unfolding_all rfl
    rw [h]
    intro hc
    rw [List.cons.injEq] at hc
    rw [Command.collide.injEq] at hc
    rw [Vec2.mk.injEq] at hc
    norm_num at hc
  · with_unfolding_all rfl

/-- C6 amended: when |overlap_y| > |overlap_x| and overlap_x > 0,
resolve_collision separates along the X axis — the SMALLER-magnitude axis —
for two plain mass-resolved non-world entities (no bounce): the impact
velocity is taken along x (vel_a.x - vel_b.x), x velocities are blended by
the move shares (b against a's already-updated velocity), positions move
along x only by the shares of overlap_x, and the two Collide commands carry
the opposite unit normals (-1, 0) and (1, 0) along the resolved X axis. -/
theorem resolve_collision_smaller_axis (eng : Eng) (a b : EntSt) (ox oy : ℚ)
    (h1 : |oy| > |ox|) (h2 : 0 < ox)
    (ha1 : is_collide_mode a.phy.physics EntCollidesMode.LITE = false)
    (hb1 : is_collide_mode b.phy.physics EntCollidesMode.FIXED = false)
    (ha2 : is_collide_mode a.phy.physics EntCollidesMode.FIXED = false)
    (hb2 : is_collide_mode b.phy.physics EntCollidesMode.LITE = false)
    (hma : 0 < a.phy.mass) (hmb : 0 < b.phy.mass)
    (hra : (a.phy.vel.x - b.phy.vel.x) * a.phy.restitution ≤ ENTITY_MIN_BOUNCE_VELOCITY)
    (hrb : (a.phy.vel.x - b.phy.vel.x) * b.phy.restitution ≤ ENTITY_MIN_BOUNCE_VELOCITY)
    (hwa : flagsContains a.phy.physics EntPhysics.WORLD = false)
    (hwb : flagsContains b.phy.physics EntPhysics.WORLD = false) :
    (resolve_collision eng a b ⟨ox, oy⟩).1.commands =
        eng.commands ++
          [Command.collide a.id ⟨-1, 0⟩ none, Command.collide b.id ⟨1, 0⟩ none] ∧
      (resolve_collision eng a b ⟨ox, oy⟩).2.1.transform.pos =
        ⟨a.transform.pos.x - ox * (b.phy.mass / (a.phy.mass + b.phy.mass)),
          a.transform.pos.y⟩ ∧
      (resolve_collision eng a b ⟨ox, oy⟩).2.2.transform.pos =
        ⟨b.transform.pos.x + ox * (a.phy.mass / (a.phy.mass + b.phy.mass)),
          b.transform.pos.y⟩ ∧
      (resolve_collision eng a b ⟨ox, oy⟩).2.1.phy.vel =
        ⟨b.phy.vel.x * (b.phy.mass / (a.phy.mass + b.phy.mass)) +
            a.phy.vel.x * (a.phy.mass / (a.phy.mass + b.phy.mass)),
          a.phy.vel.y⟩ ∧
      (resolve_collision eng a b ⟨ox, oy⟩).2.2.phy.vel =
        ⟨(b.phy.vel.x * (b.phy.mass / (a.phy.mass + b.phy.mass)) +
              a.phy.vel.x * (a.phy.mass / (a.phy.mass + b.phy.mass))) *
              (a.phy.mass / (a.phy.mass + b.phy.mass)) +
            b.phy.vel.x * (b.phy.mass / (a.phy.mass + b.phy.mass)),
          b.phy.vel.y⟩ := by
  have hsh := moveShares_plain a.phy b.phy ha1 hb1 ha2 hb2
  have ht : 0 < a.phy.mass + b.phy.mass := add_pos hma hmb
  have ham : 0 < b.phy.mass / (a.phy.mass + b.phy.mass) := div_pos hmb ht
  have hbm : 0 < a.phy.mass / (a.phy.mass + b.phy.mass) := div_pos hma ht
  simp only [resolve_collision, hsh]
  rw [if_pos h1, if_pos h2]
  rw [entities_separate_on_x_axis_plain eng a b _ _ _ ham hbm
    (not_lt.mpr hra) (not_lt.mpr hrb) hwa hwb]
  refine ⟨?_, ?_, ?_, ?_, ?_⟩
  · simp [Eng.collide, List.append_assoc]
  · refine Vec2.ext _ _ ?_ ?_ <;> simp [abs_of_pos h2] <;> try ring
  · refine Vec2.ext _ _ ?_ ?_ <;> simp [abs_of_pos h2] <;> try ring
  · simp
  · simp

/-- Witness for the amended C6 at the concrete 1-vs-3 head-on scenario with
overlap (4, -50). -/
theorem resolve_collision_smaller_axis_witness :
    (resolve_collision engB entLight entHeavy ⟨4, -50⟩).1.commands =
        engB.commands ++
          [Command.collide entLight.id ⟨-1, 0⟩ none,
            Command.collide entHeavy.id ⟨1, 0⟩ none] ∧
      (resolve_collision engB entLight entHeavy ⟨4, -50⟩).2.1.transform.pos =
        ⟨entLight.transform.pos.x -
            4 * (entHeavy.phy.mass / (entLight.phy.mass + entHeavy.phy.mass)),
          entLight.transform.pos.y⟩ ∧
      (resolve_collision engB entLight entHeavy ⟨4, -50⟩).2.2.transform.pos =
        ⟨entHeavy.transform.pos.x +
            4 * (entLight.phy.mass / (entLight.phy.mass + entHeavy.phy.mass)),
          entHeavy.transform.pos.y⟩ ∧
      (resolve_collision engB entLight entHeavy ⟨4, -50⟩).2.1.phy.vel =
        ⟨entHeavy.phy.vel.x * (entHeavy.phy.mass / (entLight.phy.mass + entHeavy.phy.mass)) +
            entLight.phy.vel.x * (entLight.phy.mass / (entLight.phy.mass + entHeavy.phy.mass)),
          entLight.phy.vel.y⟩ ∧
      (resolve_collision engB entLight entHeavy ⟨4, -50⟩).2.2.phy.vel =
        ⟨(entHeavy.phy.vel.x * (entHeavy.phy.mass / (entLight.phy.mass + entHeavy.phy.mass)) +
              entLight.phy.vel.x *
                (entLight.phy.mass / (entLight.phy.mass + entHeavy.phy.mass))) *
              (entLight.phy.mass / (entLight.phy.mass + entHeavy.phy.mass)) +
            entHeavy.phy.vel.x * (entHeavy.phy.mass / (entLight.phy.mass + entHeavy.phy.mass)),
          entHeavy.phy.vel.y⟩ :=
  resolve_collision_smaller_axis engB entLight entHeavy 4 (-50)
    (by norm_num) (by norm_num)
    (by with_unfolding_all rfl) (by with_unfolding_all rfl)
    (by with_unfolding_all rfl) (by with_unfolding_all rfl)
    (by norm_num [entLight, basePhysics]) (by norm_num [entHeavy, basePhysics])
    (by norm_num [entLight, entHeavy, basePhysics, ENTITY_MIN_BOUNCE_VELOCITY])
    (by norm_num [entLight, entHeavy, basePhysics, ENTITY_MIN_BOUNCE_VELOCITY])
    (by with_unfolding_all rfl) (by with_unfolding_all rfl)

/-! ## Claim C7: the integrator contract -/

/-- C7: entity_base_update leaves entities without MOVE untouched; for an
entity with MOVE it applies, in order, gravity to vel.y, the componentwise
friction factor min(friction * dt, 1), the acceleration/friction velocity
update, resets on_ground to false, and hands the trapezoidal half step
(vel_before + vel_after) * 0.5 * dt to entity_move — all spelled out as
closed-form component formulas. -/
theorem entity_base_update_contract (eng : Eng) (ent : EntSt) :
    entity_base_update eng ent =
      (if flagsContains ent.phy.physics EntPhysics.MOVE then
        entity_move eng
          { ent with phy :=
            { ent.phy with
              vel := ⟨ent.phy.vel.x + (ent.phy.accel.x * eng.tick -
                        ent.phy.vel.x * min (ent.phy.friction.x * eng.tick) 1),
                      (ent.phy.vel.y + eng.gravity * ent.phy.gravity * eng.tick) +
                        (ent.phy.accel.y * eng.tick -
                          (ent.phy.vel.y + eng.gravity * ent.phy.gravity * eng.tick) *
                            min (ent.phy.friction.y * eng.tick) 1)⟩,
              on_ground := false } }
          ⟨(ent.phy.vel.x +
              (ent.phy.vel.x + (ent.phy.accel.x * eng.tick -
                ent.phy.vel.x * min (ent.phy.friction.x * eng.tick) 1))) *
              (eng.tick * (1 / 2 : ℚ)),
            (ent.phy.vel.y +
              ((ent.phy.vel.y + eng.gravity * ent.phy.gravity * eng.tick) +
                (ent.phy.accel.y * eng.tick -
                  (ent.phy.vel.y + eng.gravity * ent.phy.gravity * eng.tick) *
                    min (ent.phy.friction.y * eng.tick) 1))) *
              (eng.tick * (1 / 2 : ℚ))⟩
      else (eng, ent)) := by
  simp only [entity_base_update]
  by_cases h : flagsContains ent.phy.physics EntPhysics.MOVE = true
  · rw [if_neg (by simp [h]), if_pos h]
    rfl
  · rw [if_pos (by simp [h]), if_neg h]

/-! ## Claim C2: SAT slow path vs AABB fast path -/

theorem satGetVertices0 (p h : Vec2) :
    SatRect.get_vertices ⟨p, h, 0, 1⟩ =
      [⟨p.x - h.x, p.y + h.y⟩, ⟨p.x + h.x, p.y + h.y⟩,
        ⟨p.x + h.x, p.y - h.y⟩, ⟨p.x - h.x, p.y - h.y⟩] := by
  simp only [SatRect.get_vertices, List.cons.injEq, and_true]
  refine ⟨?_, ?_, ?_, ?_⟩ <;> (refine Vec2.ext _ _ ?_ ?_ <;> simp <;> ring)

theorem normalize_vert (t : ℚ) (ht : 0 < t) : normalize ⟨0, t⟩ = ⟨0, 1⟩ := by
  unfold normalize
  have hd : dot ⟨0, t⟩ ⟨0, t⟩ = t * t := by simp [dot]
  rw [hd, Rat.sqrt_eq, abs_of_pos ht]
  exact Vec2.ext _ _ (by simp) (by simp [div_self (ne_of_gt ht)])

theorem normalize_horiz (t : ℚ) (ht : 0 < t) : normalize ⟨t, 0⟩ = ⟨1, 0⟩ := by
  unfold normalize
  have hd : dot ⟨t, 0⟩ ⟨t, 0⟩ = t * t := by simp [dot]
  rw [hd, Rat.sqrt_eq, abs_of_pos ht]
  exact Vec2.ext _ _ (by simp [div_self (ne_of_gt ht)]) (by simp)

theorem project_axis_y (x1 x2 yt yb : ℚ) (h : yb < yt) :
    project [⟨x1, yt⟩, ⟨x2, yt⟩, ⟨x2, yb⟩, ⟨x1, yb⟩] ⟨0, 1⟩ =
      { min := yb, max := yt } := by
  simp only [project, List.foldl, dot]
  norm_num [h, h.not_lt]

theorem project_axis_x (xl xr ya yb : ℚ) (h : xl < xr) :
    project [⟨xl, ya⟩, ⟨xr, ya⟩, ⟨xr, yb⟩, ⟨xl, yb⟩] ⟨1, 0⟩ =
      { min := xl, max := xr } := by
  simp only [project, List.foldl, dot]
  norm_num [h, h.not_lt]

/-- Closed form of the SAT slow path on two axis-aligned rectangles: all
four candidate axes normalize to the coordinate unit vectors, the
projection overlaps are the per-axis interval overlap widths wx and wy, and
the minimum-overlap axis wins (strict improvement only, so ties keep the
y axis, which is tested first). -/
theorem sat_collision_overlap0 (p1 h1 p2 h2 : Vec2)
    (hw1 : 0 < h1.x) (hh1 : 0 < h1.y) (hw2 : 0 < h2.x) (hh2 : 0 < h2.y)
    (hox : 0 < min (p1.x + h1.x) (p2.x + h2.x) - max (p1.x - h1.x) (p2.x - h2.x))
    (hoy : 0 < min (p1.y + h1.y) (p2.y + h2.y) - max (p1.y - h1.y) (p2.y - h2.y))
    (hbx : min (p1.x + h1.x) (p2.x + h2.x) - max (p1.x - h1.x) (p2.x - h2.x) < f32MAX)
    (hby : min (p1.y + h1.y) (p2.y + h2.y) - max (p1.y - h1.y) (p2.y - h2.y) < f32MAX) :
    sat_collision_overlap ⟨p1, h1, 0, 1⟩ ⟨p2, h2, 0, 1⟩ =
      some
        (if min (p1.x + h1.x) (p2.x + h2.x) - max (p1.x - h1.x) (p2.x - h2.x) <
            min (p1.y + h1.y) (p2.y + h2.y) - max (p1.y - h1.y) (p2.y - h2.y) then
          ⟨min (p1.x + h1.x) (p2.x + h2.x) - max (p1.x - h1.x) (p2.x - h2.x), 0⟩
        else
          ⟨0, min (p1.y + h1.y) (p2.y + h2.y) - max (p1.y - h1.y) (p2.y - h2.y)⟩) := by
  set wx := min (p1.x + h1.x) (p2.x + h2.x) - max (p1.x - h1.x) (p2.x - h2.x) with hwx
  set wy := min (p1.y + h1.y) (p2.y + h2.y) - max (p1.y - h1.y) (p2.y - h2.y) with hwy
  unfold sat_collision_overlap
  rw [satGetVertices0, satGetVertices0]
  set vs1 : List Vec2 :=
    [⟨p1.x - h1.x, p1.y + h1.y⟩, ⟨p1.x + h1.x, p1.y + h1.y⟩,
      ⟨p1.x + h1.x, p1.y - h1.y⟩, ⟨p1.x - h1.x, p1.y - h1.y⟩] with hvs1
  set vs2 : List Vec2 :=
    [⟨p2.x - h2.x, p2.y + h2.y⟩, ⟨p2.x + h2.x, p2.y + h2.y⟩,
      ⟨p2.x + h2.x, p2.y - h2.y⟩, ⟨p2.x - h2.x, p2.y - h2.y⟩] with hvs2
  have hg0 : vget vs1 0 = ⟨p1.x - h1.x, p1.y + h1.y⟩ := by rw [hvs1]; rfl
  have hg1 : vget vs1 1 = ⟨p1.x + h1.x, p1.y + h1.y⟩ := by rw [hvs1]; rfl
  have hg3 : vget vs1 3 = ⟨p1.x - h1.x, p1.y - h1.y⟩ := by rw [hvs1]; rfl
  have hk0 : vget vs2 0 = ⟨p2.x - h2.x, p2.y + h2.y⟩ := by rw [hvs2]; rfl
  have hk1 : vget vs2 1 = ⟨p2.x + h2.x, p2.y + h2.y⟩ := by rw [hvs2]; rfl
  have hk3 : vget vs2 3 = ⟨p2.x - h2.x, p2.y - h2.y⟩ := by rw [hvs2]; rfl
  simp only [hg0, hg1, hg3, hk0, hk1, hk3]
  have e1 : perp ((⟨p1.x + h1.x, p1.y + h1.y⟩ : Vec2) - ⟨p1.x - h1.x, p1.y + h1.y⟩) =
      ⟨0, 2 * h1.x⟩ := by
    unfold perp
    exact Vec2.ext _ _ (by simp) (by simp; ring)
  have e2 : perp ((⟨p1.x - h1.x, p1.y - h1.y⟩ : Vec2) - ⟨p1.x - h1.x, p1.y + h1.y⟩) =
      ⟨2 * h1.y, 0⟩ := by
    unfold perp
    exact Vec2.ext _ _ (by simp; ring) (by simp)
  have e3 : perp ((⟨p2.x + h2.x, p2.y + h2.y⟩ : Vec2) - ⟨p2.x - h2.x, p2.y + h2.y⟩) =
      ⟨0, 2 * h2.x⟩ := by
    unfold perp
    exact Vec2.ext _ _ (by simp) (by simp; ring)
  have e4 : perp ((⟨p2.x - h2.x, p2.y - h2.y⟩ : Vec2) - ⟨p2.x - h2.x, p2.y + h2.y⟩) =
      ⟨2 * h2.y, 0⟩ := by
    unfold perp
    exact Vec2.ext _ _ (by simp; ring) (by simp)
  rw [e1, e2, e3, e4]
  have hn1 : normalize ⟨0, 2 * h1.x⟩ = ⟨0, 1⟩ := normalize_vert _ (by linarith)
  have hn2 : normalize ⟨2 * h1.y, 0⟩ = ⟨1, 0⟩ := normalize_horiz _ (by linarith)
  have hn3 : normalize ⟨0, 2 * h2.x⟩ = ⟨0, 1⟩ := normalize_vert _ (by linarith)
  have hn4 : normalize ⟨2 * h2.y, 0⟩ = ⟨1, 0⟩ := normalize_horiz _ (by linarith)
  have hp1y : project vs1 ⟨0, 1⟩ = { min := p1.y - h1.y, max := p1.y + h1.y } := by
    rw [hvs1]; exact project_axis_y _ _ _ _ (by linarith)
  have hp2y : project vs2 ⟨0, 1⟩ = { min := p2.y - h2.y, max := p2.y + h2.y } := by
    rw [hvs2]; exact project_axis_y _ _ _ _ (by linarith)
  have hp1x : project vs1 ⟨1, 0⟩ = { min := p1.x - h1.x, max := p1.x + h1.x } := by
    rw [hvs1]; exact project_axis_x _ _ _ _ (by linarith)
  have hp2x : project vs2 ⟨1, 0⟩ = { min := p2.x - h2.x, max := p2.x + h2.x } := by
    rw [hvs2]; exact project_axis_x _ _ _ _ (by linarith)
  have hovy : sat_calc_overlap (project vs1 ⟨0, 1⟩) (project vs2 ⟨0, 1⟩) = some wy := by
    rw [hp1y, hp2y]
    simp only [sat_calc_overlap]
    rw [← hwy, if_pos hoy]
  have hovx : sat_calc_overlap (project vs1 ⟨1, 0⟩) (project vs2 ⟨1, 0⟩) = some wx := by
    rw [hp1x, hp2x]
    simp only [sat_calc_overlap]
    rw [← hwx, if_pos hox]
  have s1 : satAxisStep vs1 vs2 (some (f32MAX, ⟨0, 0⟩)) ⟨0, 2 * h1.x⟩ =
      some (wy, ⟨0, 1⟩) := by
    simp only [satAxisStep, hn1, hovy]
    rw [if_pos hby]
  have s2 : satAxisStep vs1 vs2 (some (wy, ⟨0, 1⟩)) ⟨2 * h1.y, 0⟩ =
      if wx < wy then some (wx, ⟨1, 0⟩) else some (wy, ⟨0, 1⟩) := by
    simp only [satAxisStep, hn2, hovx]
  simp only [List.foldl, s1, s2]
  rcases lt_or_ge wx wy with hlt | hge
  · rw [if_pos hlt, if_pos hlt]
    have s3 : satAxisStep vs1 vs2 (some (wx, ⟨1, 0⟩)) ⟨0, 2 * h2.x⟩ =
        some (wx, ⟨1, 0⟩) := by
      simp only [satAxisStep, hn3, hovy]
      rw [if_neg (not_lt.mpr (le_of_lt hlt))]
    have s4 : satAxisStep vs1 vs2 (some (wx, ⟨1, 0⟩)) ⟨2 * h2.y, 0⟩ =
        some (wx, ⟨1, 0⟩) := by
      simp only [satAxisStep, hn4, hovx]
      rw [if_neg (lt_irrefl wx)]
    rw [s3, s4]
    simp only [Option.some.injEq]
    exact Vec2.ext _ _ (by simp) (by simp)
  · rw [if_neg (not_lt.mpr hge), if_neg (not_lt.mpr hge)]
    have s3 : satAxisStep vs1 vs2 (some (wy, ⟨0, 1⟩)) ⟨0, 2 * h2.x⟩ =
        some (wy, ⟨0, 1⟩) := by
      simp only [satAxisStep, hn3, hovy]
      rw [if_neg (lt_irrefl wy)]
    have s4 : satAxisStep vs1 vs2 (some (wy, ⟨0, 1⟩)) ⟨2 * h2.y, 0⟩ =
        some (wy, ⟨0, 1⟩) := by
      simp only [satAxisStep, hn4, hovx]
      rw [if_neg (not_lt.mpr hge)]
    rw [s3, s4]
    simp only [Option.some.injEq]
    exact Vec2.ext _ _ (by simp) (by simp)

/-- C2 counterexample: two axis-aligned overlapping rectangles (centers
(0,0) and (-5,0), both with half-size (3,100)) on which the SAT slow path
returns the single-axis minimum-penetration vector (1, 0) while the
axis-aligned fast path of calc_overlap returns the two-component signed
penetration vector (-1, -200): the x components differ in sign and the y
components differ by 200, far beyond any float epsilon. -/
theorem sat_vs_fast_path_counterexample :
    sat_collision_overlap ⟨⟨0, 0⟩, ⟨3, 100⟩, 0, 1⟩ ⟨⟨-5, 0⟩, ⟨3, 100⟩, 0, 1⟩ =
      some ⟨1, 0⟩ ∧
    calc_overlap ⟨⟨0, 0⟩, ⟨3, 100⟩⟩ ⟨⟨-5, 0⟩, ⟨3, 100⟩⟩ = some ⟨-1, -200⟩ ∧
    ¬ (|(1 : ℚ) - (-1)| ≤ 1 / 16 ∧ |(0 : ℚ) - (-200)| ≤ 1 / 16) := by
  refine ⟨?_, by with_unfolding_all rfl, by norm_num⟩
  have h := sat_collision_overlap0 ⟨0, 0⟩ ⟨3, 100⟩ ⟨-5, 0⟩ ⟨3, 100⟩
    (by norm_num) (by norm_num) (by norm_num) (by norm_num)
    (by norm_num) (by norm_num) (by norm_num [f32MAX]) (by norm_num [f32MAX])
  rw [h]; norm_num

/-- The axis-aligned fast path of calc_overlap on two strictly overlapping
rectangles, when neither interval is nested inside the other on either
axis: the signed penetration's magnitude on each axis equals that axis's
interval overlap width. -/
theorem calc_overlap_aabb (p1 h1 p2 h2 : Vec2)
    (hox : 0 < min (p1.x + h1.x) (p2.x + h2.x) - max (p1.x - h1.x) (p2.x - h2.x))
    (hoy : 0 < min (p1.y + h1.y) (p2.y + h2.y) - max (p1.y - h1.y) (p2.y - h2.y))
    (hnx : (p1.x - h1.x < p2.x - h2.x ∧ p1.x + h1.x ≤ p2.x + h2.x) ∨
      (p2.x - h2.x ≤ p1.x - h1.x ∧ p2.x + h2.x ≤ p1.x + h1.x))
    (hny : (p1.y - h1.y < p2.y - h2.y ∧ p1.y + h1.y ≤ p2.y + h2.y) ∨
      (p2.y - h2.y ≤ p1.y - h1.y ∧ p2.y + h2.y ≤ p1.y + h1.y)) :
    ∃ ox oy, calc_overlap ⟨p1, h1⟩ ⟨p2, h2⟩ = some ⟨ox, oy⟩ ∧
      |ox| = min (p1.x + h1.x) (p2.x + h2.x) - max (p1.x - h1.x) (p2.x - h2.x) ∧
      |oy| = min (p1.y + h1.y) (p2.y + h2.y) - max (p1.y - h1.y) (p2.y - h2.y) := by
  have hxlt := sub_pos.mp hox
  have hylt := sub_pos.mp hoy
  have hx1 : p1.x - h1.x < p2.x + h2.x :=
    lt_of_le_of_lt (le_max_left _ _) (lt_of_lt_of_le hxlt (min_le_right _ _))
  have hx2 : p2.x - h2.x < p1.x + h1.x :=
    lt_of_le_of_lt (le_max_right _ _) (lt_of_lt_of_le hxlt (min_le_left _ _))
  have hy1 : p1.y - h1.y < p2.y + h2.y :=
    lt_of_le_of_lt (le_max_left _ _) (lt_of_lt_of_le hylt (min_le_right _ _))
  have hy2 : p2.y - h2.y < p1.y + h1.y :=
    lt_of_le_of_lt (le_max_right _ _) (lt_of_lt_of_le hylt (min_le_left _ _))
  have ht : (calc_bounds0 p1 h1).is_touching (calc_bounds0 p2 h2) = true := by
    simp only [Rect.is_touching, calc_bounds0, Vec2.sub_x, Vec2.sub_y, Vec2.add_x,
      Vec2.add_y]
    simp [not_lt.mpr hx1.le, not_lt.mpr hx2.le, not_lt.mpr hy1.le, not_lt.mpr hy2.le]
  simp only [calc_overlap, Vec2.sub_x, Vec2.sub_y, Vec2.add_x, Vec2.add_y]
  rw [if_neg (not_not_intro ht)]
  rcases hnx with ⟨hax, hbx⟩ | ⟨hax, hbx⟩ <;> rcases hny with ⟨hay, hby⟩ | ⟨hay, hby⟩
  · refine ⟨p1.x + h1.x - (p2.x - h2.x), p1.y + h1.y - (p2.y - h2.y), ?_, ?_, ?_⟩
    · simp only [calc_bounds0, Vec2.sub_x, Vec2.sub_y, Vec2.add_x, Vec2.add_y]
      rw [if_pos hax, if_pos hay]
    · have he : min (p1.x + h1.x) (p2.x + h2.x) - max (p1.x - h1.x) (p2.x - h2.x) =
          p1.x + h1.x - (p2.x - h2.x) := by
        rw [min_eq_left hbx, max_eq_right hax.le]
      rw [← he]; exact abs_of_pos hox
    · have he : min (p1.y + h1.y) (p2.y + h2.y) - max (p1.y - h1.y) (p2.y - h2.y) =
          p1.y + h1.y - (p2.y - h2.y) := by
        rw [min_eq_left hby, max_eq_right hay.le]
      rw [← he]; exact abs_of_pos hoy
  · refine ⟨p1.x + h1.x - (p2.x - h2.x), -(p2.y + h2.y - (p1.y - h1.y)), ?_, ?_, ?_⟩
    · simp only [calc_bounds0, Vec2.sub_x, Vec2.sub_y, Vec2.add_x, Vec2.add_y]
      rw [if_pos hax, if_neg (not_lt.mpr hay), if_pos hy1]
    · have he : min (p1.x + h1.x) (p2.x + h2.x) - max (p1.x - h1.x) (p2.x - h2.x) =
          p1.x + h1.x - (p2.x - h2.x) := by
        rw [min_eq_left hbx, max_eq_right hax.le]
      rw [← he]; exact abs_of_pos hox
    · have he : min (p1.y + h1.y) (p2.y + h2.y) - max (p1.y - h1.y) (p2.y - h2.y) =
          p2.y + h2.y - (p1.y - h1.y) := by
        rw [min_eq_right hby, max_eq_left hay]
      rw [abs_neg, ← he]; exact abs_of_pos hoy
  · refine ⟨-(p2.x + h2.x - (p1.x - h1.x)), p1.y + h1.y - (p2.y - h2.y), ?_, ?_, ?_⟩
    · simp only [calc_bounds0, Vec2.sub_x, Vec2.sub_y, Vec2.add_x, Vec2.add_y]
      rw [if_neg (not_lt.mpr hax), if_pos hx1, if_pos hay]
    · have he : min (p1.x + h1.x) (p2.x + h2.x) - max (p1.x - h1.x) (p2.x - h2.x) =
          p2.x + h2.x - (p1.x - h1.x) := by
        rw [min_eq_right hbx, max_eq_left hax]
      rw [abs_neg, ← he]; exact abs_of_pos hox
    · have he : min (p1.y + h1.y) (p2.y + h2.y) - max (p1.y - h1.y) (p2.y - h2.y) =
          p1.y + h1.y - (p2.y - h2.y) := by
        rw [min_eq_left hby, max_eq_right hay.le]
      rw [← he]; exact abs_of_pos hoy
  · refine ⟨-(p2.x + h2.x - (p1.x - h1.x)), -(p2.y + h2.y - (p1.y - h1.y)), ?_, ?_, ?_⟩
    · simp only [calc_bounds0, Vec2.sub_x, Vec2.sub_y, Vec2.add_x, Vec2.add_y]
      rw [if_neg (not_lt.mpr hax), if_pos hx1, if_neg (not_lt.mpr hay), if_pos hy1]
    · have he : min (p1.x + h1.x) (p2.x + h2.x) - max (p1.x - h1.x) (p2.x - h2.x) =
          p2.x + h2.x - (p1.x - h1.x) := by
        rw [min_eq_right hbx, max_eq_left hax]
      rw [abs_neg, ← he]; exact abs_of_pos hox
    · have he : min (p1.y + h1.y) (p2.y + h2.y) - max (p1.y - h1.y) (p2.y - h2.y) =
          p2.y + h2.y - (p1.y - h1.y) := by
        rw [min_eq_right hby, max_eq_left hay]
      rw [abs_neg, ← he]; exact abs_of_pos hoy

/-- C2: for two overlapping axis-aligned rectangles the SAT slow path and
the bounds fast path of calc_overlap do NOT return equal overlap vectors;
what does hold (the amended claim): writing wx, wy for the per-axis
interval overlap widths, the SAT path returns the single-axis vector
(wx, 0) or (0, wy) of the strictly smaller axis (ties keeping y), while
the fast path — when neither rectangle is nested inside the other on
either axis — returns a two-component signed vector whose per-axis
magnitudes are wx and wy. -/
theorem sat_vs_fast_path_angle0 (p1 h1 p2 h2 : Vec2)
    (hw1 : 0 < h1.x) (hh1 : 0 < h1.y) (hw2 : 0 < h2.x) (hh2 : 0 < h2.y)
    (hox : 0 < min (p1.x + h1.x) (p2.x + h2.x) - max (p1.x - h1.x) (p2.x - h2.x))
    (hoy : 0 < min (p1.y + h1.y) (p2.y + h2.y) - max (p1.y - h1.y) (p2.y - h2.y))
    (hbx : min (p1.x + h1.x) (p2.x + h2.x) - max (p1.x - h1.x) (p2.x - h2.x) < f32MAX)
    (hby : min (p1.y + h1.y) (p2.y + h2.y) - max (p1.y - h1.y) (p2.y - h2.y) < f32MAX)
    (hnx : (p1.x - h1.x < p2.x - h2.x ∧ p1.x + h1.x ≤ p2.x + h2.x) ∨
      (p2.x - h2.x ≤ p1.x - h1.x ∧ p2.x + h2.x ≤ p1.x + h1.x))
    (hny : (p1.y - h1.y < p2.y - h2.y ∧ p1.y + h1.y ≤ p2.y + h2.y) ∨
      (p2.y - h2.y ≤ p1.y - h1.y ∧ p2.y + h2.y ≤ p1.y + h1.y)) :
    sat_collision_overlap ⟨p1, h1, 0, 1⟩ ⟨p2, h2, 0, 1⟩ =
      some
        (if min (p1.x + h1.x) (p2.x + h2.x) - max (p1.x - h1.x) (p2.x - h2.x) <
            min (p1.y + h1.y) (p2.y + h2.y) - max (p1.y - h1.y) (p2.y - h2.y) then
          ⟨min (p1.x + h1.x) (p2.x + h2.x) - max (p1.x - h1.x) (p2.x - h2.x), 0⟩
        else
          ⟨0, min (p1.y + h1.y) (p2.y + h2.y) - max (p1.y - h1.y) (p2.y - h2.y)⟩) ∧
    ∃ ox oy, calc_overlap ⟨p1, h1⟩ ⟨p2, h2⟩ = some ⟨ox, oy⟩ ∧
      |ox| = min (p1.x + h1.x) (p2.x + h2.x) - max (p1.x - h1.x) (p2.x - h2.x) ∧
      |oy| = min (p1.y + h1.y) (p2.y + h2.y) - max (p1.y - h1.y) (p2.y - h2.y) :=
  ⟨sat_collision_overlap0 p1 h1 p2 h2 hw1 hh1 hw2 hh2 hox hoy hbx hby,
    calc_overlap_aabb p1 h1 p2 h2 hox hoy hnx hny⟩

/-- Witness for C2 at centers (0,0) and (1,0), half-sizes both (2,1):
the overlap widths are wx = 3 and wy = 2, the SAT path yields (0, 2)
(y is the smaller axis) and the fast path's signed vector has magnitudes
3 and 2. -/
theorem sat_vs_fast_path_angle0_witness :
    sat_collision_overlap ⟨⟨0, 0⟩, ⟨2, 1⟩, 0, 1⟩ ⟨⟨1, 0⟩, ⟨2, 1⟩, 0, 1⟩ =
      some ⟨0, 2⟩ ∧
    ∃ ox oy, calc_overlap ⟨⟨0, 0⟩, ⟨2, 1⟩⟩ ⟨⟨1, 0⟩, ⟨2, 1⟩⟩ = some ⟨ox, oy⟩ ∧
      |ox| = 3 ∧ |oy| = 2 := by
  have h := sat_vs_fast_path_angle0 ⟨0, 0⟩ ⟨2, 1⟩ ⟨1, 0⟩ ⟨2, 1⟩
    (by norm_num) (by norm_num) (by norm_num) (by norm_num)
    (by norm_num) (by norm_num) (by norm_num [f32MAX]) (by norm_num [f32MAX])
    (by norm_num) (by norm_num)
  constructor
  · rw [h.1]; norm_num
  · obtain ⟨ox, oy, heq, hax, hay⟩ := h.2
    refine ⟨ox, oy, heq, ?_, ?_⟩
    · rw [hax]; norm_num
    · rw [hay]; norm_num

end Roast2d
